import Mathlib

/-!
Verification development for the FedEx shipping-assistant repository.

The definitions below are shallow embeddings of the Python source:
pure functions become Lean functions, LLM and database calls become
explicit oracle parameters (an oracle value of `none` models a raised
exception or unusable response), Python floats become rationals, and
Python string operations are modelled on ASCII character lists (all
keyword tables in the source are ASCII).
-/

/- Rationals stand in for Python floats.  `half n` is the literal n/2,
used for the fractional entries of the static weight table. -/
abbrev Q := ℚ

def half (n : ℤ) : ℚ := (n : ℚ) / 2

/- Python `needle in hay` on strings: substring containment. -/
def pyIn (needle hay : String) : Bool := decide (needle.data <:+: hay.data)

/- ASCII model of Python str.lower / str.upper (the keyword tables and
query fragments the source compares against are all ASCII). -/
def lowerChar (c : Char) : Char :=
  if 65 ≤ c.toNat ∧ c.toNat ≤ 90 then Char.ofNat (c.toNat + 32) else c

def upperChar (c : Char) : Char :=
  if 97 ≤ c.toNat ∧ c.toNat ≤ 122 then Char.ofNat (c.toNat - 32) else c

def strLower (s : String) : String := ⟨s.data.map lowerChar⟩

def strUpper (s : String) : String := ⟨s.data.map upperChar⟩

def isAsciiAlpha (c : Char) : Bool :=
  (65 ≤ c.toNat ∧ c.toNat ≤ 90) ∨ (97 ≤ c.toNat ∧ c.toNat ≤ 122)

/- Python str.title(): a letter is uppercased when the previous character
is not a letter, lowercased otherwise. -/
def titleAux : Bool → List Char → List Char
  | _, [] => []
  | prevAlpha, c :: rest =>
    (if isAsciiAlpha c then (if prevAlpha then lowerChar c else upperChar c) else c)
      :: titleAux (isAsciiAlpha c) rest

def pyTitle (s : String) : String := ⟨titleAux false s.data⟩

/- Python str.strip(): whitespace removed from both ends. -/
def pyStrip (s : String) : String :=
  ⟨((s.data.dropWhile Char.isWhitespace).reverse.dropWhile Char.isWhitespace).reverse⟩

/- Python s.split(<char>), as a list of parts. -/
def splitCharAux (sep : Char) (acc : List Char) : List Char → List (List Char)
  | [] => [acc.reverse]
  | c :: rest =>
    if c = sep then acc.reverse :: splitCharAux sep [] rest
    else splitCharAux sep (c :: acc) rest

def pySplit (sep : Char) (s : String) : List String :=
  (splitCharAux sep [] s.data).map (fun l => ⟨l⟩)

/- First-match lookup in an association list; models a Python dict whose
keys are unique (duplicate literal keys were already collapsed,
last-occurrence-wins, exactly as the Python dict literal does). -/
def lookupTbl {α : Type} (t : List (String × α)) (k : String) : Option α :=
  (t.find? (fun p => p.1 == k)).map (fun p => p.2)

def lookupTbl2 (t : List (String × String × String)) (k : String) :
    Option (String × String) :=
  (t.find? (fun p => p.1 == k)).map (fun p => p.2)

/-!
## Option Ranker — `ShippingExpertAgent._analyze_options` (src/src/agents/adk_agents.py)

A rate dict from `_query_rates` carries service, service_type, price_usd
and delivery_time (plus zone and weight, unused by the ranker).
Recommendation dicts carry a type tag, service, price, sometimes a
delivery_time, and a reason string; the reason strings interpolate the
budget figure, which is modelled by the structured field `budgetNoted`.
-/

structure RateRow where
  service : String
  serviceType : String
  price : Q
  deliveryTime : String
  zone : Nat
  weightLb : Int
deriving DecidableEq, Repr

inductive RecType
  | userIntent
  | budgetWarning
  | recommended
  | alternative
  | budgetFit
  | overBudget
deriving DecidableEq, Repr

structure Rec where
  rtype : RecType
  service : String
  price : Q
  deliveryTime : Option String
  budgetNoted : Option Q
deriving DecidableEq, Repr

/- Python `sorted(rates, key=lambda x: x["price_usd"])` is a stable sort
by price; insertion sort with a non-strict comparison produces exactly
the same list (ties keep their original order). -/
def priceLe (a b : RateRow) : Prop := a.price ≤ b.price

instance : DecidableRel priceLe := fun a b => inferInstanceAs (Decidable (a.price ≤ b.price))

instance : IsTotal RateRow priceLe := ⟨fun a b => le_total a.price b.price⟩

instance : IsTrans RateRow priceLe := ⟨fun _ _ _ h1 h2 => le_trans h1 h2⟩

def sortByPrice (l : List RateRow) : List RateRow := l.insertionSort priceLe

/- The urgency-to-service-types mapping of `_analyze_options`; keys
mapping to Python `None` (cheapest, standard) and unknown keys both
yield `none`, exactly like `dict.get`. -/
def urgencyServiceMapADK (u : String) : Option (List String) :=
  if u = "overnight" then some ["FedEx_First_Overnight", "FedEx_Priority_Overnight", "FedEx_Standard_Overnight"]
  else if u = "next-day" then some ["FedEx_First_Overnight", "FedEx_Priority_Overnight", "FedEx_Standard_Overnight"]
  else if u = "first" then some ["FedEx_First_Overnight"]
  else if u = "priority" then some ["FedEx_Priority_Overnight"]
  else if u = "2-day" then some ["FedEx_2Day_AM", "FedEx_2Day"]
  else if u = "2day" then some ["FedEx_2Day_AM", "FedEx_2Day"]
  else if u = "two-day" then some ["FedEx_2Day_AM", "FedEx_2Day"]
  else if u = "express" then some ["FedEx_Express_Saver"]
  else if u = "saver" then some ["FedEx_Express_Saver"]
  else if u = "3-day" then some ["FedEx_Express_Saver"]
  else if u = "economy" then some ["FedEx_Express_Saver"]
  else none

def uiRec (best : RateRow) : Rec :=
  ⟨RecType.userIntent, best.service, best.price, some best.deliveryTime, none⟩

def warnRec (best : RateRow) (b : Q) : Rec :=
  ⟨RecType.budgetWarning, best.service, best.price, none, some b⟩

def cheapestRec (c : RateRow) (t : RecType) : Rec :=
  ⟨t, c.service, c.price, some c.deliveryTime, none⟩

def fitRec (c : RateRow) (b : Q) : Rec :=
  ⟨RecType.budgetFit, c.service, c.price, some c.deliveryTime, some b⟩

def overRec (c : RateRow) (b : Q) : Rec :=
  ⟨RecType.overBudget, c.service, c.price, none, some b⟩

/- PRIMARY: user-intent recommendation.  The Python guard
`if urgency and urgency.lower() not in [standard, none, empty]` is
truth-tested first (None and the empty string are falsy). -/
def primaryRecs (rates : List RateRow) (budget : Option Q) (urgency : Option String) :
    List Rec :=
  match urgency with
  | none => []
  | some s =>
    if s = "" ∨ strLower s ∈ (["standard", "none", ""] : List String) then []
    else
      match urgencyServiceMapADK (strLower s) with
      | none => []
      | some targets =>
        match sortByPrice (rates.filter (fun r => targets.contains r.serviceType)) with
        | [] => []
        | best :: _ =>
          match budget with
          | some b => if b ≠ 0 ∧ b < best.price then [uiRec best, warnRec best b] else [uiRec best]
          | none => [uiRec best]

/- SECONDARY: cheapest option, tagged recommended when no specific
urgency was stated and alternative otherwise. -/
def secondaryType (urgency : Option String) : RecType :=
  match urgency with
  | none => RecType.recommended
  | some s =>
    if s = "" ∨ strLower s ∈ (["standard", "cheapest", "none", ""] : List String) then
      RecType.recommended
    else RecType.alternative

def secondaryRecs (rates : List RateRow) (urgency : Option String) : List Rec :=
  match sortByPrice rates with
  | [] => []
  | c :: _ => [cheapestRec c (secondaryType urgency)]

/- TERTIARY: budget analysis — only when the budget is truthy (a Python
float of 0.0 is falsy and skips this whole block). -/
def tertiaryRecs (rates : List RateRow) (budget : Option Q) (prev : List Rec) : List Rec :=
  match budget with
  | none => []
  | some b =>
    if b = 0 then []
    else
      let within := (sortByPrice rates).filter (fun r => r.price ≤ b)
      match within with
      | bestIn :: _ =>
        if ¬ prev.any (fun r => r.rtype == RecType.userIntent) then
          if ¬ prev.any (fun r => r.service == bestIn.service) then [fitRec bestIn b] else []
        else []
      | [] =>
        match sortByPrice rates with
        | c :: _ => [overRec c b]
        | [] => []

def analyzeOptions (rates : List RateRow) (budget : Option Q) (urgency : Option String) :
    List Rec :=
  if rates = [] then []
  else
    primaryRecs rates budget urgency ++ secondaryRecs rates urgency ++
      tertiaryRecs rates budget (primaryRecs rates budget urgency ++ secondaryRecs rates urgency)

/- A concrete zone-8, 10 lb rate row set in the shape `_query_rates`
returns (sorted output of the six service columns), used by the
witnesses and counterexamples below. -/
def exRates : List RateRow :=
  [⟨"FedEx Express Saver", "FedEx_Express_Saver", 45, "3 business days by 4:30 PM", 8, 10⟩,
   ⟨"FedEx 2Day", "FedEx_2Day", 60, "2 business days by 4:30 PM", 8, 10⟩,
   ⟨"FedEx 2Day AM", "FedEx_2Day_AM", 70, "2 business days by 10:30 AM", 8, 10⟩,
   ⟨"FedEx Standard Overnight", "FedEx_Standard_Overnight", 78, "1 business day by 3:00 PM", 8, 10⟩,
   ⟨"FedEx Priority Overnight", "FedEx_Priority_Overnight", 95, "1 business day by 10:30 AM", 8, 10⟩,
   ⟨"FedEx First Overnight", "FedEx_First_Overnight", 130, "1 business day by 8:00 AM", 8, 10⟩]

/-!
## Rate lookup rounding — `ShippingExpertAgent._query_rates` (src/src/agents/adk_agents.py)

The source computes the lookup key as
`int(weight) if weight == int(weight) else int(weight) + 1`
(with a comment saying it rounds UP to the nearest whole number) and
then issues an exact-match SQL query `WHERE Zone = z AND Weight = key`.
Python `int()` truncates toward zero, which is modelled by `pyTrunc`.
-/

def pyTrunc (w : Q) : ℤ := if 0 ≤ w then Rat.floor w else -(Rat.floor (-w))

def weightLookup (w : Q) : ℤ :=
  if (pyTrunc w : Q) = w then pyTrunc w else pyTrunc w + 1

/- A database row of the fedex_rates table: zone, weight, and the six
service-tier price columns in schema order. -/
structure DbRow where
  zone : Nat
  weight : ℤ
  firstOvernight : Q
  priorityOvernight : Q
  standardOvernight : Q
  twoDayAM : Q
  twoDay : Q
  expressSaver : Q
deriving DecidableEq, Repr

/- The wide-to-long conversion of `_query_rates`: each positive price
column becomes a rate option, then the options are sorted by price. -/
def rowToRates (zone : Nat) (wl : ℤ) (row : DbRow) : List RateRow :=
  sortByPrice ((
    [("FedEx First Overnight", "FedEx_First_Overnight", row.firstOvernight, "1 business day by 8:00 AM"),
     ("FedEx Priority Overnight", "FedEx_Priority_Overnight", row.priorityOvernight, "1 business day by 10:30 AM"),
     ("FedEx Standard Overnight", "FedEx_Standard_Overnight", row.standardOvernight, "1 business day by 3:00 PM"),
     ("FedEx 2Day AM", "FedEx_2Day_AM", row.twoDayAM, "2 business days by 10:30 AM"),
     ("FedEx 2Day", "FedEx_2Day", row.twoDay, "2 business days by 4:30 PM"),
     ("FedEx Express Saver", "FedEx_Express_Saver", row.expressSaver, "3 business days by 4:30 PM")] :
      List (String × String × Q × String)).filterMap
    (fun p => if 0 < p.2.2.1 then some ⟨p.1, p.2.1, p.2.2.1, p.2.2.2, zone, wl⟩ else none))

/- `_query_rates` against an abstract database table (the Vanna client
is external): the exact-match query over (zone, rounded weight). -/
def queryRates (db : List DbRow) (zone : Nat) (weight : Q) : List RateRow :=
  match db.find? (fun r => r.zone == zone && r.weight == weightLookup weight) with
  | some row => rowToRates zone (weightLookup weight) row
  | none => []

/- Modelled from the spec: the round-half-up rule the claim asserts for
fractional weights at rate-lookup time. -/
def roundHalfUpSpec (w : Q) : ℤ := ⌊w + 1 / 2⌋

/- The literal 10.4 = 52/5, built without normalization so that kernel
evaluation works. -/
def q104 : Q := ⟨52, 5, by norm_num, by norm_num⟩

/- The literal 10.5 = 21/2. -/
def q105 : Q := ⟨21, 2, by norm_num, by norm_num⟩

/-!
## Validation Gate — `SupervisorAgent` (src/src/agents/adk_agents.py)

`process` first runs the deterministic `_check_prompt_injection`
substring scan; only when it finds nothing does it call the LLM-backed
`_validate_shipping_query`.  The LLM is an oracle `String → String`
(the raw completion text); the Boolean paired with the outcome records
whether that oracle was consulted.  The fixed decline messages of the
source are modelled as tags.
-/

def SECURITY_PATTERNS : List String :=
  ["ignore previous", "ignore all previous", "disregard instructions", "new instructions",
   "system prompt", "you are now", "pretend to be", "act as if", "forget everything",
   "override", "bypass", "jailbreak"]

def checkPromptInjection (query : String) : Bool :=
  SECURITY_PATTERNS.any (fun p => pyIn p (strLower query))

/- `_validate_shipping_query`: the classification is YES iff the LLM
response, uppercased, contains the substring YES. -/
def validateShippingQuery (query : String) (llm : String → String) : Bool :=
  pyIn "YES" (strUpper (llm query))

inductive AgentTag
  | supervisor
  | customer
  | expert
deriving DecidableEq, Repr

inductive SupMessage
  | securityDecline
  | offTopicDecline
  | validated
deriving DecidableEq, Repr

structure AgentResponseE where
  success : Bool
  message : SupMessage
  nextAgent : Option AgentTag
  isFinal : Bool
deriving DecidableEq, Repr

/- `SupervisorAgent.process`, paired with whether the LLM was called. -/
def supervisorProcess (query : String) (llm : String → String) : AgentResponseE × Bool :=
  if checkPromptInjection query then
    (⟨false, SupMessage.securityDecline, none, true⟩, false)
  else if validateShippingQuery query llm then
    (⟨true, SupMessage.validated, some AgentTag.customer, false⟩, true)
  else
    (⟨false, SupMessage.offTopicDecline, none, true⟩, true)

/- `AgentOrchestrator.process_query` agent chain: the supervisor runs
first; a final response stops the loop, otherwise control passes to the
customer agent and then possibly the expert (both external here,
supplied as oracles returning their `AgentResponse`). -/
def orchestrate (query : String) (llm : String → String)
    (customer expert : String → AgentResponseE) : AgentResponseE × List AgentTag :=
  match supervisorProcess query llm with
  | (supResp, _) =>
    if supResp.isFinal then (supResp, [AgentTag.supervisor])
    else
      match supResp.nextAgent with
      | some AgentTag.customer =>
        let c := customer query
        if c.isFinal then (c, [AgentTag.supervisor, AgentTag.customer])
        else
          match c.nextAgent with
          | some AgentTag.expert =>
            (expert query, [AgentTag.supervisor, AgentTag.customer, AgentTag.expert])
          | _ => (c, [AgentTag.supervisor, AgentTag.customer])
      | _ => (supResp, [AgentTag.supervisor])

/-!
## Weight Estimator — `WeightEstimator.estimate_weight` (src/src/tools/weight_estimator.py)

The static description-to-weight table, in dict insertion order; the
match test is `key in item_lower or item_lower in key` on the lowered,
stripped item description.  The LLM fallback `_estimate_with_llm`
returns (weight, confidence, reasoning); any exception or malformed
JSON — including a non-numeric weight field, whose float() conversion
raises inside the same try block — takes the default branch (5.0 lbs,
low confidence).  The weight_kg field (a fixed unit conversion of
weight_lbs for display) is omitted.
-/

def COMMON_WEIGHTS : List (String × Q) :=
  [("wine bottle", (3 : Q)), ("wine bottles", (3 : Q)), ("champagne bottle", (half 7)), ("beer case", (20 : Q)), ("beer 6-pack", (5 : Q)), ("water bottle", (1 : Q)), ("whiskey bottle", (3 : Q)), ("laptop", (5 : Q)), ("macbook", (half 9)), ("ipad", (half 3)), ("iphone", (half 1)), ("playstation", (10 : Q)), ("xbox", (9 : Q)), ("nintendo switch", (2 : Q)), ("32 inch tv", (15 : Q)), ("32\" tv", (15 : Q)), ("40 inch tv", (20 : Q)), ("40\" tv", (20 : Q)), ("50 inch tv", (35 : Q)), ("50\" tv", (35 : Q)), ("55 inch tv", (40 : Q)), ("55\" tv", (40 : Q)), ("65 inch tv", (55 : Q)), ("65\" tv", (55 : Q)), ("75 inch tv", (70 : Q)), ("75\" tv", (70 : Q)), ("85 inch tv", (90 : Q)), ("85\" tv", (90 : Q)), ("chocolate box", (2 : Q)), ("chocolates", (2 : Q)), ("cookies", (half 3)), ("cake", (5 : Q)), ("gift basket", (8 : Q)), ("fruit basket", (10 : Q)), ("shoes", (3 : Q)), ("pair of shoes", (3 : Q)), ("boots", (4 : Q)), ("jacket", (3 : Q)), ("coat", (5 : Q)), ("dress", (half 3)), ("suit", (4 : Q)), ("book", (half 3)), ("textbook", (3 : Q)), ("hardcover book", (2 : Q)), ("paperback", (1 : Q)), ("box of books", (30 : Q)), ("golf clubs", (30 : Q)), ("golf bag", (35 : Q)), ("bicycle", (30 : Q)), ("skateboard", (8 : Q)), ("snowboard", (15 : Q)), ("skis", (20 : Q)), ("guitar", (10 : Q)), ("acoustic guitar", (10 : Q)), ("electric guitar", (12 : Q)), ("keyboard", (25 : Q)), ("violin", (5 : Q)), ("small table", (25 : Q)), ("chair", (20 : Q)), ("lamp", (8 : Q)), ("mirror", (15 : Q)), ("picture frame", (3 : Q)), ("blender", (8 : Q)), ("coffee maker", (10 : Q)), ("instant pot", (15 : Q)), ("air fryer", (12 : Q)), ("microwave", (30 : Q)), ("toaster", (5 : Q))]

def weightKeyMatch (key itemLower : String) : Bool :=
  pyIn key itemLower || pyIn itemLower key

/- The parsed JSON of a successful LLM estimation call; absent fields
take the dict.get defaults of the source. -/
structure LlmWeightJson where
  weightLbs : Option Q
  confidence : Option String
  reasoning : Option String
deriving DecidableEq, Repr

inductive LlmWeightResp
  | fail
  | ok (j : LlmWeightJson)
deriving DecidableEq

inductive ReasonTag
  | databaseMatch (item : String) (w : Q)
  | llmReasoning (r : String)
  | llmDefaultReason (item : String)
deriving DecidableEq, Repr

structure WeightResult where
  weightLbs : Q
  confidence : String
  source : String
  reasoning : ReasonTag
deriving DecidableEq, Repr

def estimateWithLlm (item : String) (o : LlmWeightResp) : Q × String × ReasonTag :=
  match o with
  | LlmWeightResp.fail => (5, "low", ReasonTag.llmDefaultReason item)
  | LlmWeightResp.ok j =>
    (j.weightLbs.getD 5, strLower (j.confidence.getD "medium"),
     ReasonTag.llmReasoning (j.reasoning.getD "Estimated based on item description"))

/- `estimate_weight`, paired with whether the LLM was called. -/
def estimateWeight (itemDescription : String) (o : LlmWeightResp) : WeightResult × Bool :=
  match COMMON_WEIGHTS.find?
      (fun p => weightKeyMatch p.1 (pyStrip (strLower itemDescription))) with
  | some p =>
    (⟨p.2, "high", "database", ReasonTag.databaseMatch itemDescription p.2⟩, false)
  | none =>
    match estimateWithLlm itemDescription o with
    | (w, conf, reason) => (⟨w, conf, "llm_estimation", reason⟩, true)

/-!
## Reflection Stage — `UnifiedFedExAgent._perform_reflection` (src/src/agents/unified_agent.py)

The recommendation dict is modelled by its fields consumed here
(service, estimated cost, recommendation text); `none` stands for a
missing or empty recommendation (Python `not rec`).  The two LLM calls
(chain-of-thought, then final reflection) are oracles returning the
completion text; `none` models a raised exception, and an exception in
either call lands in the single except block, which installs the fixed
static reassurance string and an empty chain of thought.
-/

structure RecInfo where
  service : String
  estimatedCost : Q
  recommendation : String
deriving DecidableEq, Repr

def noReflectionMsg : String := "No recommendation to reflect on."

def reflectionFallbackMsg : String :=
  "Recommendation appears reasonable based on available data."

def reflectionEscalationKeywords : List String :=
  ["supervisor", "escalate", "review needed", "concern", "issue"]

structure ReflectOut where
  reflection : String
  chainOfThought : String
  supervisorRequired : Bool
deriving DecidableEq, Repr

def performReflection (rec : Option RecInfo) (cotOracle finalOracle : Option String) :
    ReflectOut :=
  match rec with
  | none => ⟨noReflectionMsg, "", false⟩
  | some r =>
    if r.service = "N/A" then ⟨noReflectionMsg, "", false⟩
    else
      match cotOracle with
      | none => ⟨reflectionFallbackMsg, "", false⟩
      | some cot =>
        match finalOracle with
        | none => ⟨reflectionFallbackMsg, "", false⟩
        | some reflectionText =>
          ⟨reflectionText, cot,
           reflectionEscalationKeywords.any (fun k => pyIn k (strLower reflectionText))⟩

/-!
## Zone Lookup Tool — `FedExZoneLookupTool` (src/agents/zone_lookup_tool.py)

The tool used by the unified agent.  Its two LLM helpers are oracles:
`stateOracle` models the completion call of `_normalize_state_with_llm`
and `cityOracle` the one of `_normalize_city_with_llm` (an oracle value
of `none` is a raised exception).  Explanation strings are modelled as
tagged templates (`ToolExpl`); the docstrings below each constructor in
the source interpolate the shown fields.
-/

def toolZoneDatabase : List (String × Nat) :=
  [("san francisco, ca", 2), ("oakland, ca", 2), ("san jose, ca", 2), ("fremont, ca", 2), ("sacramento, ca", 2), ("fresno, ca", 2), ("los angeles, ca", 2), ("san diego, ca", 2), ("santa barbara, ca", 2), ("bakersfield, ca", 2), ("stockton, ca", 2), ("modesto, ca", 2), ("phoenix, az", 3), ("tucson, az", 3), ("mesa, az", 3), ("las vegas, nv", 3), ("reno, nv", 3), ("henderson, nv", 3), ("portland, or", 3), ("eugene, or", 3), ("salem, or", 3), ("seattle, wa", 3), ("spokane, wa", 3), ("tacoma, wa", 3), ("salt lake city, ut", 3), ("provo, ut", 3), ("ogden, ut", 3), ("denver, co", 3), ("colorado springs, co", 3), ("aurora, co", 3), ("boise, id", 3), ("albuquerque, nm", 3), ("santa fe, nm", 3), ("dallas, tx", 4), ("houston, tx", 4), ("austin, tx", 4), ("san antonio, tx", 4), ("fort worth, tx", 4), ("el paso, tx", 4), ("oklahoma city, ok", 4), ("tulsa, ok", 4), ("norman, ok", 4), ("kansas city, mo", 4), ("st louis, mo", 4), ("springfield, mo", 4), ("omaha, ne", 4), ("lincoln, ne", 4), ("wichita, ks", 4), ("little rock, ar", 4), ("des moines, ia", 4), ("sioux falls, sd", 4), ("chicago, il", 5), ("springfield, il", 5), ("peoria, il", 5), ("detroit, mi", 5), ("grand rapids, mi", 5), ("ann arbor, mi", 5), ("milwaukee, wi", 5), ("madison, wi", 5), ("green bay, wi", 5), ("indianapolis, in", 5), ("fort wayne, in", 5), ("evansville, in", 5), ("columbus, oh", 5), ("cleveland, oh", 5), ("cincinnati, oh", 5), ("minneapolis, mn", 5), ("st paul, mn", 5), ("duluth, mn", 5), ("atlanta, ga", 6), ("savannah, ga", 6), ("augusta, ga", 6), ("nashville, tn", 6), ("memphis, tn", 6), ("knoxville, tn", 6), ("charlotte, nc", 6), ("raleigh, nc", 6), ("durham, nc", 6), ("miami, fl", 6), ("tampa, fl", 6), ("orlando, fl", 6), ("jacksonville, fl", 6), ("tallahassee, fl", 6), ("pensacola, fl", 6), ("new orleans, la", 6), ("baton rouge, la", 6), ("shreveport, la", 6), ("birmingham, al", 6), ("montgomery, al", 6), ("mobile, al", 6), ("jackson, ms", 6), ("charleston, sc", 6), ("columbia, sc", 6), ("boston, ma", 7), ("worcester, ma", 7), ("cambridge, ma", 7), ("philadelphia, pa", 7), ("pittsburgh, pa", 7), ("harrisburg, pa", 7), ("baltimore, md", 7), ("annapolis, md", 7), ("frederick, md", 7), ("washington, dc", 7), ("richmond, va", 7), ("norfolk, va", 7), ("buffalo, ny", 7), ("rochester, ny", 7), ("syracuse, ny", 7), ("albany, ny", 7), ("hartford, ct", 7), ("new haven, ct", 7), ("providence, ri", 7), ("portland, me", 7), ("manchester, nh", 7), ("new york, ny", 8), ("manhattan, ny", 8), ("brooklyn, ny", 8), ("queens, ny", 8), ("bronx, ny", 8), ("staten island, ny", 8), ("newark, nj", 8), ("jersey city, nj", 8), ("paterson, nj", 8)]

def toolStateAbbreviations : List (String × String) :=
  [("alabama", "AL"), ("alaska", "AK"), ("arizona", "AZ"), ("arkansas", "AR"), ("california", "CA"), ("colorado", "CO"), ("connecticut", "CT"), ("delaware", "DE"), ("florida", "FL"), ("georgia", "GA"), ("hawaii", "HI"), ("idaho", "ID"), ("illinois", "IL"), ("indiana", "IN"), ("iowa", "IA"), ("kansas", "KS"), ("kentucky", "KY"), ("louisiana", "LA"), ("maine", "ME"), ("maryland", "MD"), ("massachusetts", "MA"), ("michigan", "MI"), ("minnesota", "MN"), ("mississippi", "MS"), ("missouri", "MO"), ("montana", "MT"), ("nebraska", "NE"), ("nevada", "NV"), ("new hampshire", "NH"), ("new jersey", "NJ"), ("new mexico", "NM"), ("new york", "NY"), ("north carolina", "NC"), ("north dakota", "ND"), ("ohio", "OH"), ("oklahoma", "OK"), ("oregon", "OR"), ("pennsylvania", "PA"), ("rhode island", "RI"), ("south carolina", "SC"), ("south dakota", "SD"), ("tennessee", "TN"), ("texas", "TX"), ("utah", "UT"), ("vermont", "VT"), ("virginia", "VA"), ("washington", "WA"), ("west virginia", "WV"), ("wisconsin", "WI"), ("wyoming", "WY")]

def toolStateZones : List (String × Nat) :=
  [("CA", 2), ("OR", 3), ("WA", 3), ("NV", 3), ("AZ", 3), ("UT", 3), ("TX", 4), ("OK", 4), ("KS", 4), ("NE", 4), ("CO", 4), ("IL", 5), ("MI", 5), ("IN", 5), ("WI", 5), ("MN", 5), ("GA", 6), ("FL", 6), ("SC", 6), ("NC", 6), ("TN", 6), ("PA", 7), ("MA", 7), ("CT", 7), ("RI", 7), ("MD", 7), ("NY", 8), ("NJ", 8), ("VT", 8), ("NH", 8)]

def zipToZone : List (String × Nat) :=
  [("900", 2), ("901", 2), ("902", 2), ("903", 2), ("904", 2), ("905", 2), ("906", 2), ("907", 2), ("908", 2), ("910", 2), ("911", 2), ("912", 2), ("913", 2), ("914", 2), ("915", 2), ("916", 2), ("917", 2), ("918", 2), ("919", 2), ("920", 2), ("921", 2), ("922", 2), ("923", 2), ("924", 2), ("925", 2), ("926", 2), ("927", 2), ("928", 2), ("930", 2), ("931", 2), ("932", 2), ("933", 2), ("934", 2), ("935", 2), ("936", 2), ("937", 2), ("938", 2), ("939", 2), ("940", 2), ("941", 2), ("942", 2), ("943", 2), ("944", 2), ("945", 2), ("946", 2), ("947", 2), ("948", 2), ("949", 2), ("950", 2), ("951", 2), ("952", 2), ("953", 2), ("954", 2), ("959", 2), ("960", 2), ("961", 2), ("820", 3), ("821", 3), ("822", 3), ("823", 3), ("824", 3), ("825", 3), ("826", 3), ("827", 3), ("828", 3), ("829", 3), ("830", 3), ("831", 3), ("832", 3), ("833", 3), ("834", 3), ("835", 3), ("836", 3), ("837", 3), ("838", 3), ("840", 3), ("841", 3), ("842", 3), ("843", 3), ("844", 3), ("845", 3), ("846", 3), ("847", 3), ("850", 3), ("851", 3), ("852", 3), ("853", 3), ("870", 3), ("871", 3), ("872", 3), ("873", 3), ("874", 3), ("875", 3), ("877", 3), ("878", 3), ("879", 3), ("880", 3), ("881", 3), ("882", 3), ("883", 3), ("884", 3), ("889", 3), ("890", 3), ("891", 3), ("893", 3), ("894", 3), ("895", 3), ("896", 3), ("897", 3), ("898", 3), ("730", 4), ("731", 4), ("733", 4), ("734", 4), ("735", 4), ("736", 4), ("737", 4), ("738", 4), ("739", 4), ("740", 4), ("741", 4), ("743", 4), ("744", 4), ("745", 4), ("746", 4), ("747", 4), ("748", 4), ("749", 4), ("750", 4), ("751", 4), ("752", 4), ("753", 4), ("754", 4), ("755", 4), ("756", 4), ("757", 4), ("758", 4), ("759", 4), ("760", 4), ("761", 4), ("762", 4), ("763", 4), ("764", 4), ("765", 4), ("766", 4), ("767", 4), ("768", 4), ("769", 4), ("770", 4), ("772", 4), ("773", 4), ("774", 4), ("775", 4), ("776", 4), ("777", 4), ("778", 4), ("779", 4), ("780", 4), ("781", 4), ("782", 4), ("783", 4), ("784", 4), ("785", 4), ("786", 4), ("787", 4), ("788", 4), ("789", 4), ("790", 4), ("791", 4), ("792", 4), ("793", 4), ("794", 4), ("795", 4), ("796", 4), ("797", 4), ("798", 4), ("799", 4), ("600", 5), ("601", 5), ("602", 5), ("603", 5), ("604", 5), ("605", 5), ("606", 5), ("607", 5), ("608", 5), ("609", 5), ("610", 5), ("611", 5), ("612", 5), ("613", 5), ("614", 5), ("615", 5), ("616", 5), ("617", 5), ("618", 5), ("619", 5), ("620", 5), ("622", 5), ("623", 5), ("624", 5), ("625", 5), ("626", 5), ("627", 5), ("628", 5), ("629", 5), ("430", 5), ("431", 5), ("432", 5), ("433", 5), ("434", 5), ("435", 5), ("436", 5), ("437", 5), ("438", 5), ("439", 5), ("440", 5), ("441", 5), ("442", 5), ("443", 5), ("444", 5), ("445", 5), ("446", 5), ("447", 5), ("448", 5), ("449", 5), ("450", 5), ("451", 5), ("452", 5), ("453", 5), ("454", 5), ("455", 5), ("456", 5), ("457", 5), ("458", 5), ("460", 5), ("461", 5), ("462", 5), ("463", 5), ("464", 5), ("465", 5), ("466", 5), ("467", 5), ("468", 5), ("469", 5), ("470", 5), ("471", 5), ("472", 5), ("473", 5), ("474", 5), ("475", 5), ("476", 5), ("477", 5), ("478", 5), ("479", 5), ("480", 5), ("481", 5), ("482", 5), ("483", 5), ("484", 5), ("485", 5), ("486", 5), ("487", 5), ("488", 5), ("489", 5), ("490", 5), ("491", 5), ("492", 5), ("493", 5), ("494", 5), ("495", 5), ("496", 5), ("497", 5), ("498", 5), ("499", 5), ("300", 6), ("301", 6), ("302", 6), ("303", 6), ("304", 6), ("305", 6), ("306", 6), ("307", 6), ("308", 6), ("309", 6), ("310", 6), ("311", 6), ("312", 6), ("313", 6), ("314", 6), ("315", 6), ("316", 6), ("317", 6), ("318", 6), ("319", 6), ("320", 6), ("321", 6), ("322", 6), ("323", 6), ("324", 6), ("325", 6), ("326", 6), ("327", 6), ("328", 6), ("329", 6), ("330", 6), ("331", 6), ("332", 6), ("333", 6), ("334", 6), ("335", 6), ("336", 6), ("337", 6), ("338", 6), ("339", 6), ("340", 6), ("341", 6), ("342", 6), ("344", 6), ("346", 6), ("347", 6), ("349", 6), ("150", 7), ("151", 7), ("152", 7), ("153", 7), ("154", 7), ("155", 7), ("156", 7), ("157", 7), ("158", 7), ("159", 7), ("160", 7), ("161", 7), ("162", 7), ("163", 7), ("164", 7), ("165", 7), ("166", 7), ("167", 7), ("168", 7), ("169", 7), ("170", 7), ("171", 7), ("172", 7), ("173", 7), ("174", 7), ("175", 7), ("176", 7), ("177", 7), ("178", 7), ("179", 7), ("180", 7), ("181", 7), ("182", 7), ("183", 7), ("184", 7), ("185", 7), ("186", 7), ("187", 7), ("188", 7), ("189", 7), ("190", 7), ("191", 7), ("192", 7), ("193", 7), ("194", 7), ("195", 7), ("196", 7), ("197", 7), ("198", 7), ("199", 7), ("100", 8), ("101", 8), ("102", 8), ("103", 8), ("104", 8), ("105", 8), ("106", 8), ("107", 8), ("108", 8), ("109", 8), ("110", 8), ("111", 8), ("112", 8), ("113", 8), ("114", 8), ("115", 8), ("116", 8), ("117", 8), ("118", 8), ("119", 8), ("070", 8), ("071", 8), ("072", 8), ("073", 8), ("074", 8), ("075", 8), ("076", 8), ("077", 8), ("078", 8), ("079", 8), ("080", 8), ("081", 8), ("082", 8), ("083", 8), ("084", 8), ("085", 8), ("086", 8), ("087", 8), ("088", 8), ("089", 8)]

def defaultOriginZip : String := "94538"

def toolStateValues : List String := toolStateAbbreviations.map (fun p => p.2)

def digitsToNat (l : List Char) : ℕ := l.foldl (fun n c => 10 * n + (c.toNat - 48)) 0

def digitChar (n : ℕ) : Char := Char.ofNat (48 + n)

def natToStrAux : ℕ → ℕ → List Char
  | 0, _ => []
  | fuel + 1, n => if n < 10 then [digitChar n] else natToStrAux fuel (n / 10) ++ [digitChar (n % 10)]

def natToStr (n : ℕ) : String := ⟨natToStrAux (n + 1) n⟩

/- `_normalize_state_with_llm`: a valid 2-letter abbreviation is kept;
otherwise the LLM correction is consulted, its first two uppercased
characters accepted only when they form a valid abbreviation; on any
failure the uppercased input is returned. -/
def normalizeStateWithLlm (state : String) (stateOracle : String → Option String) : String :=
  let stateUpper := pyStrip (strUpper state)
  if stateUpper.data.length = 2 ∧ stateUpper ∈ toolStateValues then stateUpper
  else
    match stateOracle state with
    | some resp =>
      let norm : String := ⟨(strUpper (pyStrip resp)).data.take 2⟩
      if norm ∈ toolStateValues then norm else stateUpper
    | none => stateUpper

/- The known-cities context of `_normalize_city_with_llm`:
`key.split(",")[0].strip() for key in db if state.lower() in key`. -/
def knownCitiesFor (stateCode : String) : List String :=
  toolZoneDatabase.filterMap (fun p =>
    if pyIn (strLower stateCode) p.1 then some (pyStrip ((pySplit ',' p.1).headD "")) else none)

def normalizeCityWithLlm (city stateCode : String)
    (cityOracle : String → String → Option String) : String :=
  let known := knownCitiesFor stateCode
  if strLower city ∈ known.map strLower then pyTitle city
  else
    match cityOracle city stateCode with
    | some resp => pyTitle (pyStrip resp)
    | none => pyTitle city

inductive ToolExpl
  | zipZone (zipcode : String) (z : ℕ)
  | zipEstimate (zipcode : String) (z : ℕ)
  | cityStateZone (city state : String) (z : ℕ) (corrected : Bool)
  | cityApprox (city : String) (z : ℕ)
  | cityNotFound (city state : String)
  | stateGeneral (state : String) (z : ℕ)
  | stateNotFound (state : String)
  | unableToDetermine
deriving DecidableEq, Repr

def parseNat3 (l : List Char) : Option ℕ :=
  if l ≠ [] ∧ l.all Char.isDigit then some (digitsToNat l) else none

/- `_estimate_zone_from_zip`: distance of the 3-digit prefixes; its own
except block returns the middle zone 5 on any conversion error. -/
def estimateZoneFromZip (destZip originZip : String) : ℕ :=
  match parseNat3 (destZip.data.take 3), parseNat3 (originZip.data.take 3) with
  | some d, some o =>
    let distance := ((d : ℤ) - (o : ℤ)).natAbs
    if distance < 50 then 2
    else if distance < 150 then 3
    else if distance < 300 then 4
    else if distance < 450 then 5
    else if distance < 600 then 6
    else if distance < 750 then 7
    else 8
  | _, _ => 5

/- `_lookup_by_zipcode`: table hit on the 3-digit prefix, else the
distance estimate (which always yields a zone, so this method never
returns an unresolved result and the except branch is unreachable). -/
def lookupByZipcode (zipcode originZip : String) : Option ℕ × ToolExpl :=
  match lookupTbl zipToZone ⟨zipcode.data.take 3⟩ with
  | some z => (some z, ToolExpl.zipZone zipcode z)
  | none =>
    match estimateZoneFromZip zipcode originZip with
    | z => (some z, ToolExpl.zipEstimate zipcode z)

/- `_lookup_by_city_state`. -/
def lookupByCityState (city state : String) (stateOracle : String → Option String)
    (cityOracle : String → String → Option String) : Option ℕ × ToolExpl :=
  let ns := normalizeStateWithLlm state stateOracle
  let nc := normalizeCityWithLlm city ns cityOracle
  match lookupTbl toolZoneDatabase (strLower nc ++ ", " ++ strLower ns) with
  | some z =>
    (some z, ToolExpl.cityStateZone nc ns z
      (decide (strLower city ≠ strLower nc ∨ strLower state ≠ strLower ns)))
  | none =>
    match toolZoneDatabase.find? (fun p => pyIn (strLower nc) p.1) with
    | some p => (some p.2, ToolExpl.cityApprox nc p.2)
    | none => (none, ToolExpl.cityNotFound nc ns)

/- `_lookup_by_state`: the tool has its own, smaller state table. -/
def lookupByState (state : String) (stateOracle : String → Option String) :
    Option ℕ × ToolExpl :=
  let ns := normalizeStateWithLlm state stateOracle
  match lookupTbl toolStateZones ns with
  | some z => (some z, ToolExpl.stateGeneral ns z)
  | none => (none, ToolExpl.stateNotFound ns)

/- `lookup_zone` methods 2 and 3 plus the final unresolved return. -/
def toolLookupZoneAux3 (state : Option String) (stateOracle : String → Option String) :
    Option ℕ × ToolExpl :=
  match state with
  | some s =>
    if s = "" then (none, ToolExpl.unableToDetermine)
    else
      match lookupByState s stateOracle with
      | (some z, e) => (some z, e)
      | (none, _) => (none, ToolExpl.unableToDetermine)
  | none => (none, ToolExpl.unableToDetermine)

def toolLookupZoneAux2 (city state : Option String) (stateOracle : String → Option String)
    (cityOracle : String → String → Option String) : Option ℕ × ToolExpl :=
  match city, state with
  | some c, some s =>
    if c = "" ∨ s = "" then toolLookupZoneAux3 state stateOracle
    else
      match lookupByCityState c s stateOracle cityOracle with
      | (some z, e) => (some z, e)
      | (none, _) => toolLookupZoneAux3 state stateOracle
  | _, _ => toolLookupZoneAux3 state stateOracle

/- `FedExZoneLookupTool.lookup_zone` with the default origin ZIP; the
`get_zone_with_correction` wrapper reports success iff the zone is
`some`. -/
def toolLookupZone (city state zipcode : Option String)
    (stateOracle : String → Option String)
    (cityOracle : String → String → Option String) : Option ℕ × ToolExpl :=
  match zipcode with
  | some zc =>
    if zc = "" then toolLookupZoneAux2 city state stateOracle cityOracle
    else
      match lookupByZipcode zc defaultOriginZip with
      | (some z, e) => (some z, e)
      | (none, _) => toolLookupZoneAux2 city state stateOracle cityOracle
  | none => toolLookupZoneAux2 city state stateOracle cityOracle

/-!
## Unified Agent — `UnifiedFedExAgent` (src/src/agents/unified_agent.py)

`_parse_request` runs the two deterministic prohibited-item scans
before anything else; only past them is the LLM extraction invoked
(oracle `parseOracle`, whose `none` covers a raised exception, a
response without JSON braces, and unparseable JSON — all of which land
in `_apply_defaults`).  The zone lookup tool above is wired in with its
own LLM oracles.  Fixed clarification messages are modelled as tags
carrying the data they interpolate.
-/

def livingBeingsKeywords : List String :=
  ["baby", "babies", "child", "children", "infant", "toddler", "human", "person", "people",
   "man", "woman", "kid", "boy", "girl", "pet", "dog", "cat", "puppy", "kitten", "animal",
   "animals", "bird", "fish", "hamster", "rabbit", "snake", "lizard", "turtle", "horse",
   "cow", "pig", "chicken", "livestock"]

def perishableKeywords : List String :=
  ["mango", "mangoes", "fruit", "fruits", "vegetable", "vegetables", "perishable", "food",
   "fresh", "ripe", "meat", "fish", "seafood", "dairy", "milk", "cheese", "yogurt",
   "ice cream", "frozen", "flower", "flowers", "plant", "plants", "produce", "cake", "bakery"]

/- `ValidationKeywords.REFLECTION_KEYWORDS` and
`is_reflection_request` (src/src/agents/validation_keywords.py). -/
def REFLECTION_KEYWORDS : List String :=
  ["is this right", "are you sure", "is this correct", "is that right", "can you verify",
   "verify this", "double check", "check this", "confirm this", "confirm that",
   "certain", "positive", "sure about"]

def isReflectionRequest (text : String) : Bool :=
  REFLECTION_KEYWORDS.any (fun k => pyIn k (strLower text))

/- A JSON scalar as it can appear in the budget field of the extracted
parameters. -/
inductive Jv
  | null
  | str (s : String)
  | num (q : Q)
deriving DecidableEq, Repr

/- `CustomerInteractionAgent._parse_query` normalization
(src/src/agents/adk_agents.py): a budget equal to any of
[None-string, null-string, empty string, 0] is coerced to None; Python
in-list equality makes 0, 0.0 and False all match the 0 entry. -/
def adkNormalizeBudget (v : Jv) : Jv :=
  match v with
  | Jv.null => Jv.null
  | Jv.str s => if s = "None" ∨ s = "null" ∨ s = "" then Jv.null else Jv.str s
  | Jv.num q => if q = 0 then Jv.null else Jv.num q

/- Python float(str) for the cleaned budget text: an optional sign,
digits, and an optional decimal part (the forms the cleaned dollar
figures take). -/
def parseFloatQ (s : String) : Option Q :=
  let l := s.data
  let neg : Bool := match l with
    | '-' :: _ => true
    | _ => false
  let l2 : List Char := match l with
    | '-' :: r => r
    | '+' :: r => r
    | _ => l
  let ip := l2.takeWhile Char.isDigit
  let rest := l2.drop ip.length
  match rest with
  | [] =>
    if ip = [] then none
    else some ((if neg then -1 else 1) * (digitsToNat ip : Q))
  | '.' :: fr =>
    let fd := fr.takeWhile Char.isDigit
    if fr.drop fd.length ≠ [] ∨ (ip = [] ∧ fd = []) then none
    else if fd = [] then some ((if neg then -1 else 1) * (digitsToNat ip : Q))
    else some ((if neg then -1 else 1) *
      ((digitsToNat ip : Q) + (digitsToNat fd : Q) / ((10 : Q) ^ fd.length)))
  | _ => none

/- The `$`/comma cleanup applied to a textual budget before float(). -/
def cleanBudgetChars (s : String) : String :=
  pyStrip ⟨s.data.filter (fun c => c ≠ '$' ∧ c ≠ ',')⟩

/- `_parse_request` budget handling: absent, null, the literal string
None, the empty string, and the number 0 are all falsy or filtered and
produce the 10000.0 sentinel documented in the source as
"Default = no budget constraint"; an unparseable string also falls back
to 10000.0. -/
def unifiedBudgetValue (v : Option Jv) : Q :=
  match v with
  | none => 10000
  | some Jv.null => 10000
  | some (Jv.str s) =>
    if s = "" ∨ s = "None" then 10000
    else
      match parseFloatQ (cleanBudgetChars s) with
      | some q => q
      | none => 10000
  | some (Jv.num q) => if q = 0 then 10000 else q

/- The JSON the extraction LLM returns, already shaped by json.loads;
a field is `none` when absent. -/
structure UParsed where
  origin : Option String
  destination : Option String
  weight : Option Q
  budget : Option Jv
  urgency : Option String
deriving DecidableEq, Repr

structure UState where
  userQuestion : String
  origin : String
  destination : String
  weight : Q
  budget : Q
  urgency : String
  zone : ℕ
  userRequestedReflection : Bool
deriving DecidableEq, Repr

/- `mentions_zone`: the word zone appears and some digit 1..8 appears. -/
def mentionsZone (ql : String) : Bool :=
  pyIn "zone" ql &&
    (["1", "2", "3", "4", "5", "6", "7", "8"] : List String).any (fun d => pyIn d ql)

/- The regex `zone\s+(\d+)`: scan for the word zone followed by at
least one whitespace character and then digits. -/
def matchZoneNumAt (l : List Char) : Option ℕ :=
  let ws := l.takeWhile Char.isWhitespace
  if ws = [] then none
  else
    let ds := (l.drop ws.length).takeWhile Char.isDigit
    if ds = [] then none else some (digitsToNat ds)

def findZoneNum : List Char → Option ℕ
  | [] => none
  | c :: rest =>
    if c = 'z' ∧ rest.take 3 = ['o', 'n', 'e'] then
      match matchZoneNumAt (rest.drop 3) with
      | some n => some n
      | none => findZoneNum rest
    else findZoneNum rest

/- `explanation.split(" is in")[0]` on the rendered explanation of the
zone tool; for the failure tags the caller never reads this value
(success is checked first), so they map to the empty string. -/
def destFromExpl : ToolExpl → String
  | ToolExpl.zipZone zc _ => "ZIP " ++ zc
  | ToolExpl.zipEstimate zc z => "ZIP " ++ zc ++ " estimated as Zone " ++ natToStr z ++ " (approximate)"
  | ToolExpl.cityStateZone nc ns _ _ => nc ++ ", " ++ ns
  | ToolExpl.cityApprox nc _ => nc
  | ToolExpl.stateGeneral ns z => ns ++ " is generally in Zone " ++ natToStr z ++ " (approximate)"
  | ToolExpl.cityNotFound _ _ => ""
  | ToolExpl.stateNotFound _ => ""
  | ToolExpl.unableToDetermine => ""

inductive ClarTag
  | prohibitedItem (found : List String)
  | perishableRestricted (found : List String)
  | missingInfo (needDest needWeight : Bool)
deriving DecidableEq, Repr

inductive ParseOutcome
  | blockedLiving (found : List String)
  | blockedPerishable (found : List String)
  | needsInfo (st : UState) (needDest needWeight : Bool)
  | ok (st : UState)
deriving DecidableEq, Repr

/- The LLM-extraction and zone-resolution middle part of
`_parse_request`, from state initialization to the zone update. -/
def parseRequestCore (q : String) (parseOracle : Option UParsed)
    (stateOracle : String → Option String)
    (cityOracle : String → String → Option String) : UState :=
  let st0 : UState := ⟨q, "", "", 10, 10000, "standard", 0, isReflectionRequest q⟩
  let st1 : UState :=
    match parseOracle with
    | none => { st0 with origin := "Current location", destination := "Unknown" }
    | some p =>
      { st0 with
        origin := p.origin.getD "Current location"
        destination := p.destination.getD "Unknown"
        weight := p.weight.getD 10
        budget := unifiedBudgetValue p.budget
        urgency := p.urgency.getD "standard" }
  let ql := strLower q
  if mentionsZone ql then
    match findZoneNum ql.data with
    | some z => { st1 with zone := z, destination := "Zone " ++ natToStr z }
    | none => st1
  else
    if st1.destination = "" ∨ st1.destination = "Unknown" then st1
    else
      match pySplit ',' st1.destination with
      | city :: stateCode :: _ =>
        match toolLookupZone (some (pyStrip city)) (some (pyStrip stateCode)) none
            stateOracle cityOracle with
        | (some z, e) => { st1 with zone := z, destination := destFromExpl e }
        | (none, _) => st1
      | _ =>
        match toolLookupZone (some st1.destination) none none stateOracle cityOracle with
        | (some z, e) => { st1 with zone := z, destination := destFromExpl e }
        | (none, _) => st1

/- `_parse_request`, paired with whether the extraction LLM was
invoked: the two prohibited-item scans run first and return before any
LLM call. -/
def parseRequest (q : String) (parseOracle : Option UParsed)
    (stateOracle : String → Option String)
    (cityOracle : String → String → Option String) : ParseOutcome × Bool :=
  if livingBeingsKeywords.filter (fun k => pyIn k (strLower q)) ≠ [] then
    (ParseOutcome.blockedLiving (livingBeingsKeywords.filter (fun k => pyIn k (strLower q))),
     false)
  else if perishableKeywords.filter (fun k => pyIn k (strLower q)) ≠ [] then
    (ParseOutcome.blockedPerishable (perishableKeywords.filter (fun k => pyIn k (strLower q))),
     false)
  else
    match parseRequestCore q parseOracle stateOracle cityOracle with
    | st =>
      match (¬ mentionsZone (strLower q) ∧ st.zone = 0 ∧
          (st.destination = "" ∨ st.destination = "Unknown") : Bool),
        (st.weight ≤ 0 : Bool) with
      | needDest, needWeight =>
        if needDest || needWeight then (ParseOutcome.needsInfo st needDest needWeight, true)
        else (ParseOutcome.ok st, true)

inductive UnifiedOutcome
  | clarification (tag : ClarTag)
  | sqlFailure
  | completed (st : UState) (rows : List (List (String × Option Q)))
deriving DecidableEq, Repr

/- `process_request` through the SQL stage: a clarification (including
the prohibited-item and perishable blocks, which reuse the
needs_clarification channel) returns before the SQL step; SQL
generation and execution are oracles; an empty result set is the
no-data outcome.  The Booleans record (extraction LLM called, SQL
stage entered) — rate lookup and ranking happen only on the completed
path. -/
def processRequest (q : String) (parseOracle : Option UParsed)
    (stateOracle : String → Option String)
    (cityOracle : String → String → Option String)
    (sqlGen : String → Option String)
    (sqlExec : String → Option (List (List (String × Option Q)))) :
    UnifiedOutcome × Bool × Bool :=
  match parseRequest q parseOracle stateOracle cityOracle with
  | (ParseOutcome.blockedLiving found, llmc) =>
    (UnifiedOutcome.clarification (ClarTag.prohibitedItem found), llmc, false)
  | (ParseOutcome.blockedPerishable found, llmc) =>
    (UnifiedOutcome.clarification (ClarTag.perishableRestricted found), llmc, false)
  | (ParseOutcome.needsInfo _ d w, llmc) =>
    (UnifiedOutcome.clarification (ClarTag.missingInfo d w), llmc, false)
  | (ParseOutcome.ok st, llmc) =>
    match sqlGen (if st.zone ≠ 0 ∧ ¬ pyIn "zone" (strLower q) then
        q ++ " (Zone " ++ natToStr st.zone ++ ")" else q) with
    | none => (UnifiedOutcome.sqlFailure, llmc, true)
    | some sql =>
      if sql = "" then (UnifiedOutcome.sqlFailure, llmc, true)
      else
        match sqlExec sql with
        | none => (UnifiedOutcome.sqlFailure, llmc, true)
        | some [] => (UnifiedOutcome.sqlFailure, llmc, true)
        | some rows => (UnifiedOutcome.completed st rows, llmc, true)

/-!
## Ranking in the unified agent — `_find_best_service`

The budget sentinel participates directly: `budget >= 10000` selects
the unfiltered path, otherwise options are kept only when
`cost <= budget`.  Rows are the SQL result records; a service column
participates when present, non-null and non-zero.
-/

abbrev DataRow := List (String × Option Q)

def rowGet (row : DataRow) (k : String) : Option (Option Q) :=
  (row.find? (fun p => p.1 == k)).map (fun p => p.2)

def SERVICE_COLUMNS : List String :=
  ["FedEx_Express_Saver", "FedEx_2Day", "FedEx_2Day_AM", "FedEx_Standard_Overnight",
   "FedEx_Priority_Overnight", "FedEx_First_Overnight"]

def preferredServices (urgency : String) : List String :=
  if urgency = "overnight" then
    ["FedEx_First_Overnight", "FedEx_Priority_Overnight", "FedEx_Standard_Overnight"]
  else if urgency = "2-day" then ["FedEx_2Day_AM", "FedEx_2Day"]
  else ["FedEx_Express_Saver", "FedEx_2Day", "FedEx_2Day_AM"]

structure ServiceOption where
  service : String
  cost : Q
deriving DecidableEq, Repr

def collectOptions (data : List DataRow) (budget : Q) : List ServiceOption :=
  data.flatMap (fun row =>
    SERVICE_COLUMNS.filterMap (fun s =>
      match rowGet row s with
      | some (some c) =>
        if c ≠ 0 then
          if budget ≥ 10000 then some ⟨s, c⟩
          else if c ≤ budget then some ⟨s, c⟩
          else none
        else none
      | _ => none))

/- The same collection with the no-constraint path taken throughout:
what `_find_best_service` gathers when the sentinel marks the budget
as unconstrained. -/
def collectOptionsNoBudget (data : List DataRow) : List ServiceOption :=
  data.flatMap (fun row =>
    SERVICE_COLUMNS.filterMap (fun s =>
      match rowGet row s with
      | some (some c) => if c ≠ 0 then some ⟨s, c⟩ else none
      | _ => none))

/- `sort_key`: cost plus a 1000 penalty for services outside the
urgency preference; Python sorted is stable, hence insertion sort. -/
def optLe (pref : List String) (a b : ServiceOption) : Prop :=
  a.cost + (if pref.contains a.service then 0 else 1000) ≤
    b.cost + (if pref.contains b.service then 0 else 1000)

instance (pref : List String) : DecidableRel (optLe pref) := fun x y =>
  inferInstanceAs (Decidable (_ ≤ _))

instance (pref : List String) : IsTotal ServiceOption (optLe pref) :=
  ⟨fun x y => le_total _ _⟩

instance (pref : List String) : IsTrans ServiceOption (optLe pref) :=
  ⟨fun _ _ _ h1 h2 => le_trans h1 h2⟩

/- `_find_best_service`: the cheapest preferred option, with the
supervisor_required flag at the fixed 1000 dollar threshold; `none`
when no option survives. -/
def findBestService (data : List DataRow) (budget : Q) (urgency : String) :
    Option (ServiceOption × Bool) :=
  match (collectOptions data budget).insertionSort (optLe (preferredServices urgency)) with
  | [] => none
  | best :: _ => some (best, decide (best.cost ≥ 1000))

/- A concrete SQL result row in the fedex_rates wide format. -/
def exDataRow : DataRow :=
  [("Zone", some 8), ("Weight", some 10), ("FedEx_First_Overnight", some 130),
   ("FedEx_Priority_Overnight", some 95), ("FedEx_Standard_Overnight", some 78),
   ("FedEx_2Day_AM", some 70), ("FedEx_2Day", some 60), ("FedEx_Express_Saver", some 45)]

/-!
## Location Resolver — `ZoneCalculator` (src/src/tools/zone_calculator.py)

Static tables, the location resolution cascade, and the `_get_zone`
cascade.  The three LLM helpers (`_normalize_state`,
`_correct_city_name`, `_infer_location`) take their completion calls as
oracles.  Explanations are tagged templates with a renderer producing
the exact source f-strings.
-/

def AIRPORT_CODES : List (String × String × String) :=
  [("SFO", "San Francisco", "CA"), ("LAX", "Los Angeles", "CA"), ("SAN", "San Diego", "CA"), ("OAK", "Oakland", "CA"), ("SJC", "San Jose", "CA"), ("JFK", "New York", "NY"), ("LGA", "New York", "NY"), ("EWR", "Newark", "NJ"), ("NYC", "New York", "NY"), ("ORD", "Chicago", "IL"), ("MDW", "Chicago", "IL"), ("DFW", "Dallas", "TX"), ("IAH", "Houston", "TX"), ("HOU", "Houston", "TX"), ("DEN", "Denver", "CO"), ("PHX", "Phoenix", "AZ"), ("SEA", "Seattle", "WA"), ("ATL", "Atlanta", "GA"), ("BOS", "Boston", "MA"), ("MIA", "Miami", "FL"), ("FLL", "Fort Lauderdale", "FL"), ("TPA", "Tampa", "FL"), ("MCO", "Orlando", "FL"), ("MSP", "Minneapolis", "MN"), ("DTW", "Detroit", "MI"), ("PHL", "Philadelphia", "PA"), ("CLT", "Charlotte", "NC"), ("DCA", "Washington", "DC"), ("IAD", "Washington", "DC"), ("BWI", "Baltimore", "MD"), ("SLC", "Salt Lake City", "UT"), ("PDX", "Portland", "OR"), ("LAS", "Las Vegas", "NV"), ("AUS", "Austin", "TX"), ("SAT", "San Antonio", "TX"), ("MSY", "New Orleans", "LA"), ("BNA", "Nashville", "TN"), ("RDU", "Raleigh", "NC"), ("STL", "St Louis", "MO"), ("MKE", "Milwaukee", "WI"), ("CLE", "Cleveland", "OH"), ("CMH", "Columbus", "OH"), ("IND", "Indianapolis", "IN"), ("PIT", "Pittsburgh", "PA"), ("CVG", "Cincinnati", "OH"), ("OKC", "Oklahoma City", "OK"), ("ABQ", "Albuquerque", "NM")]

def CITY_NICKNAMES : List (String × String × String) :=
  [("big apple", "New York", "NY"), ("the big apple", "New York", "NY"), ("nyc", "New York", "NY"), ("la", "Los Angeles", "CA"), ("windy city", "Chicago", "IL"), ("the windy city", "Chicago", "IL"), ("chi-town", "Chicago", "IL"), ("bay area", "San Francisco", "CA"), ("sf", "San Francisco", "CA"), ("frisco", "San Francisco", "CA"), ("silicon valley", "San Jose", "CA"), ("motor city", "Detroit", "MI"), ("motown", "Detroit", "MI"), ("mile high city", "Denver", "CO"), ("sin city", "Las Vegas", "NV"), ("vegas", "Las Vegas", "NV"), ("philly", "Philadelphia", "PA"), ("hotlanta", "Atlanta", "GA"), ("atl", "Atlanta", "GA"), ("bean town", "Boston", "MA"), ("beantown", "Boston", "MA"), ("big d", "Dallas", "TX"), ("space city", "Houston", "TX"), ("h-town", "Houston", "TX"), ("emerald city", "Seattle", "WA"), ("queen city", "Charlotte", "NC"), ("twin cities", "Minneapolis", "MN"), ("valley of the sun", "Phoenix", "AZ"), ("magic city", "Miami", "FL"), ("music city", "Nashville", "TN"), ("big easy", "New Orleans", "LA"), ("the big easy", "New Orleans", "LA"), ("nola", "New Orleans", "LA"), ("rose city", "Portland", "OR"), ("city of angels", "Los Angeles", "CA"), ("city by the bay", "San Francisco", "CA"), ("charm city", "Baltimore", "MD"), ("steel city", "Pittsburgh", "PA"), ("alamo city", "San Antonio", "TX"), ("circle city", "Indianapolis", "IN"), ("gateway city", "St Louis", "MO"), ("brew city", "Milwaukee", "WI"), ("cream city", "Milwaukee", "WI")]

def ZONE_DATABASE : List (String × Nat) :=
  [("san francisco, ca", 2), ("oakland, ca", 2), ("san jose, ca", 2), ("fremont, ca", 2), ("sacramento, ca", 2), ("fresno, ca", 2), ("los angeles, ca", 2), ("san diego, ca", 2), ("santa barbara, ca", 2), ("bakersfield, ca", 2), ("stockton, ca", 2), ("modesto, ca", 2), ("irvine, ca", 2), ("long beach, ca", 2), ("anaheim, ca", 2), ("phoenix, az", 3), ("tucson, az", 3), ("mesa, az", 3), ("las vegas, nv", 3), ("reno, nv", 3), ("henderson, nv", 3), ("portland, or", 3), ("eugene, or", 3), ("salem, or", 3), ("seattle, wa", 3), ("spokane, wa", 3), ("tacoma, wa", 3), ("salt lake city, ut", 3), ("provo, ut", 3), ("ogden, ut", 3), ("denver, co", 3), ("colorado springs, co", 3), ("aurora, co", 3), ("boulder, co", 3), ("fort collins, co", 3), ("boise, id", 3), ("albuquerque, nm", 3), ("santa fe, nm", 3), ("dallas, tx", 4), ("houston, tx", 4), ("austin, tx", 4), ("san antonio, tx", 4), ("fort worth, tx", 4), ("el paso, tx", 4), ("oklahoma city, ok", 4), ("tulsa, ok", 4), ("norman, ok", 4), ("kansas city, mo", 4), ("st louis, mo", 4), ("springfield, mo", 4), ("omaha, ne", 4), ("lincoln, ne", 4), ("wichita, ks", 4), ("little rock, ar", 4), ("des moines, ia", 4), ("sioux falls, sd", 4), ("chicago, il", 5), ("springfield, il", 5), ("peoria, il", 5), ("detroit, mi", 5), ("grand rapids, mi", 5), ("ann arbor, mi", 5), ("milwaukee, wi", 5), ("madison, wi", 5), ("green bay, wi", 5), ("indianapolis, in", 5), ("fort wayne, in", 5), ("evansville, in", 5), ("columbus, oh", 5), ("cleveland, oh", 5), ("cincinnati, oh", 5), ("minneapolis, mn", 5), ("st paul, mn", 5), ("duluth, mn", 5), ("atlanta, ga", 6), ("savannah, ga", 6), ("augusta, ga", 6), ("nashville, tn", 6), ("memphis, tn", 6), ("knoxville, tn", 6), ("charlotte, nc", 6), ("raleigh, nc", 6), ("durham, nc", 6), ("miami, fl", 6), ("tampa, fl", 6), ("orlando, fl", 6), ("jacksonville, fl", 6), ("tallahassee, fl", 6), ("pensacola, fl", 6), ("fort lauderdale, fl", 6), ("west palm beach, fl", 6), ("new orleans, la", 6), ("baton rouge, la", 6), ("shreveport, la", 6), ("birmingham, al", 6), ("montgomery, al", 6), ("mobile, al", 6), ("jackson, ms", 6), ("charleston, sc", 6), ("columbia, sc", 6), ("boston, ma", 7), ("worcester, ma", 7), ("cambridge, ma", 7), ("philadelphia, pa", 7), ("pittsburgh, pa", 7), ("harrisburg, pa", 7), ("baltimore, md", 7), ("annapolis, md", 7), ("frederick, md", 7), ("washington, dc", 7), ("richmond, va", 7), ("norfolk, va", 7), ("buffalo, ny", 7), ("rochester, ny", 7), ("syracuse, ny", 7), ("albany, ny", 7), ("hartford, ct", 7), ("new haven, ct", 7), ("providence, ri", 7), ("portland, me", 7), ("manchester, nh", 7), ("new york, ny", 8), ("manhattan, ny", 8), ("brooklyn, ny", 8), ("queens, ny", 8), ("bronx, ny", 8), ("staten island, ny", 8), ("newark, nj", 8), ("jersey city, nj", 8), ("paterson, nj", 8)]

def STATE_ABBREVIATIONS : List (String × String) :=
  [("alabama", "AL"), ("alaska", "AK"), ("arizona", "AZ"), ("arkansas", "AR"), ("california", "CA"), ("colorado", "CO"), ("connecticut", "CT"), ("delaware", "DE"), ("florida", "FL"), ("georgia", "GA"), ("hawaii", "HI"), ("idaho", "ID"), ("illinois", "IL"), ("indiana", "IN"), ("iowa", "IA"), ("kansas", "KS"), ("kentucky", "KY"), ("louisiana", "LA"), ("maine", "ME"), ("maryland", "MD"), ("massachusetts", "MA"), ("michigan", "MI"), ("minnesota", "MN"), ("mississippi", "MS"), ("missouri", "MO"), ("montana", "MT"), ("nebraska", "NE"), ("nevada", "NV"), ("new hampshire", "NH"), ("new jersey", "NJ"), ("new mexico", "NM"), ("new york", "NY"), ("north carolina", "NC"), ("north dakota", "ND"), ("ohio", "OH"), ("oklahoma", "OK"), ("oregon", "OR"), ("pennsylvania", "PA"), ("rhode island", "RI"), ("south carolina", "SC"), ("south dakota", "SD"), ("tennessee", "TN"), ("texas", "TX"), ("utah", "UT"), ("vermont", "VT"), ("virginia", "VA"), ("washington", "WA"), ("west virginia", "WV"), ("wisconsin", "WI"), ("wyoming", "WY"), ("district of columbia", "DC")]

def calcStateZones : List (String × Nat) :=
  [("CA", 2), ("OR", 3), ("WA", 3), ("NV", 3), ("AZ", 3), ("UT", 3), ("CO", 3), ("ID", 3), ("NM", 3), ("MT", 4), ("WY", 4), ("TX", 4), ("OK", 4), ("KS", 4), ("NE", 4), ("SD", 4), ("ND", 4), ("MO", 4), ("AR", 4), ("LA", 5), ("IA", 4), ("IL", 5), ("MI", 5), ("IN", 5), ("WI", 5), ("MN", 5), ("OH", 5), ("GA", 6), ("FL", 6), ("SC", 6), ("NC", 6), ("TN", 6), ("AL", 6), ("MS", 6), ("KY", 6), ("WV", 6), ("VA", 6), ("PA", 7), ("MA", 7), ("CT", 7), ("RI", 7), ("MD", 7), ("DE", 7), ("DC", 7), ("ME", 7), ("NH", 7), ("VT", 7), ("NY", 8), ("NJ", 8)]

def calcStateValues : List String := STATE_ABBREVIATIONS.map (fun p => p.2)

def zoneKey (city state : String) : String := strLower city ++ ", " ++ strLower state

inductive ZoneExpl
  | foundInDb (city state : String)
  | approxMatch (city : String)
  | stateEstimate (state : String)
  | defaultZone
deriving DecidableEq, Repr

/- The exact explanation f-strings of `_get_zone`. -/
def renderZoneExpl : ZoneExpl → String
  | ZoneExpl.foundInDb city state => "Found " ++ city ++ ", " ++ state ++ " in zone database"
  | ZoneExpl.approxMatch city => "Matched " ++ city ++ " approximately in zone database"
  | ZoneExpl.stateEstimate state => "Estimated zone based on state " ++ state
  | ZoneExpl.defaultZone => "Default zone estimate"

def explKind : ZoneExpl → ℕ
  | ZoneExpl.foundInDb _ _ => 0
  | ZoneExpl.approxMatch _ => 1
  | ZoneExpl.stateEstimate _ => 2
  | ZoneExpl.defaultZone => 3

/- The first character of each rendered template already identifies the
fallback tier that fired, whatever the interpolated city and state. -/
def explKindOfRender (s : String) : ℕ :=
  match s.data.head? with
  | some 'F' => 0
  | some 'M' => 1
  | some 'E' => 2
  | some 'D' => 3
  | _ => 4

/- `_get_zone`: exact key, then substring containment over the table
keys in order, then the state table, then the fixed default zone 5. -/
def getZone (city state : String) : ℕ × ZoneExpl :=
  match lookupTbl ZONE_DATABASE (zoneKey city state) with
  | some z => (z, ZoneExpl.foundInDb city state)
  | none =>
    match ZONE_DATABASE.find? (fun p => pyIn (strLower city) p.1) with
    | some p => (p.2, ZoneExpl.approxMatch city)
    | none =>
      match lookupTbl calcStateZones (strUpper state) with
      | some z => (z, ZoneExpl.stateEstimate state)
      | none => (5, ZoneExpl.defaultZone)

/- `_normalize_state`: known abbreviation, else full-name table, else
LLM correction accepted only as a valid abbreviation, else the
uppercased input. -/
def normalizeStateCalc (state : String) (oracle : String → Option String) : String :=
  let stateUpper := pyStrip (strUpper state)
  if stateUpper.data.length = 2 ∧ stateUpper ∈ calcStateValues then stateUpper
  else
    match lookupTbl STATE_ABBREVIATIONS (pyStrip (strLower state)) with
    | some ab => ab
    | none =>
      match oracle state with
      | some resp =>
        if (⟨(strUpper (pyStrip resp)).data.take 2⟩ : String) ∈ calcStateValues then
          ⟨(strUpper (pyStrip resp)).data.take 2⟩
        else stateUpper
      | none => stateUpper

/- `_correct_city_name`: a city already in the zone table is kept
(title-cased); otherwise the LLM correction is used, and on exception
the title-cased input. -/
def correctCityName (city state : String) (oracle : String → String → Option String) :
    String :=
  if lookupTbl ZONE_DATABASE (strLower city ++ ", " ++ strLower state) ≠ none then
    pyTitle city
  else
    match oracle city state with
    | some resp => pyTitle (pyStrip resp)
    | none => pyTitle city

/- `_infer_location`: the LLM must answer in City, ST form; a response
without a comma, or a raised exception, falls back to the title-cased
input paired with CA. -/
def inferLocation (location : String) (oracle : String → Option String) : String × String :=
  match oracle location with
  | some resp =>
    if pyIn "," (pyStrip resp) then
      match pySplit ',' (pyStrip resp) with
      | c :: s :: _ => (pyTitle (pyStrip c), ⟨(strUpper (pyStrip s)).data.take 2⟩)
      | _ => (pyTitle location, "CA")
    else (pyTitle location, "CA")
  | none => (pyTitle location, "CA")

inductive ResolveExpl
  | airportCode (input city state : String)
  | nickname (input city state : String)
  | correctedCity (fromCity toCity : String)
  | parsedCityState (city state : String)
  | inferred (city state : String)
deriving DecidableEq, Repr

/- `_resolve_location`: airport code, then nickname, then the
City, State form (with state normalization and LLM typo correction),
then single-token inference. -/
def resolveLocation (location : String)
    (stOracle : String → Option String)
    (cityOracle : String → String → Option String)
    (inferOracle : String → Option String) : String × String × ResolveExpl :=
  match lookupTbl2 AIRPORT_CODES (strUpper (pyStrip location)) with
  | some (c, s) => (c, s, ResolveExpl.airportCode location c s)
  | none =>
    match lookupTbl2 CITY_NICKNAMES (strLower (pyStrip location)) with
    | some (c, s) => (c, s, ResolveExpl.nickname location c s)
    | none =>
      if pyIn "," location then
        match pySplit ',' location with
        | first :: restParts =>
          match restParts with
          | s0 :: _ =>
            match normalizeStateCalc (pyStrip s0) stOracle with
            | state =>
              match correctCityName (pyStrip first) state cityOracle with
              | corrected =>
                if strLower corrected ≠ strLower (pyStrip first) then
                  (corrected, state, ResolveExpl.correctedCity (pyStrip first) corrected)
                else (corrected, state, ResolveExpl.parsedCityState corrected state)
          | [] =>
            match normalizeStateCalc "" stOracle with
            | state =>
              match correctCityName (pyStrip first) state cityOracle with
              | corrected =>
                if strLower corrected ≠ strLower (pyStrip first) then
                  (corrected, state, ResolveExpl.correctedCity (pyStrip first) corrected)
                else (corrected, state, ResolveExpl.parsedCityState corrected state)
        | [] => (pyTitle location, "CA", ResolveExpl.inferred (pyTitle location) "CA")
      else
        match inferLocation location inferOracle with
        | (c, s) => (c, s, ResolveExpl.inferred c s)

theorem sortByPrice_head (l : List RateRow) (b : RateRow) (rest : List RateRow)
    (h : sortByPrice l = b :: rest) : b ∈ l ∧ ∀ r ∈ l, b.price ≤ r.price := by
  have hperm := List.perm_insertionSort priceLe l
  have hsorted := List.sorted_insertionSort priceLe l
  rw [sortByPrice] at h
  rw [h] at hperm hsorted
  refine ⟨hperm.mem_iff.mp (List.mem_cons_self b rest), ?_⟩
  intro r hr
  rcases List.mem_cons.mp (hperm.mem_iff.mpr hr) with h1 | h2
  · rw [h1]
  · exact (List.pairwise_cons.mp hsorted).1 r h2

theorem sortByPrice_ne_nil {l : List RateRow} (h : l ≠ []) : sortByPrice l ≠ [] := by
  intro hc
  have hperm := List.perm_insertionSort priceLe l
  rw [sortByPrice] at hc
  rw [hc] at hperm
  exact h hperm.symm.eq_nil

theorem primaryRecs_types (rates : List RateRow) (budget : Option Q) (urgency : Option String) :
    ∀ r ∈ primaryRecs rates budget urgency,
      r.rtype = RecType.userIntent ∨ r.rtype = RecType.budgetWarning := by
  intro r hr
  unfold primaryRecs at hr
  split at hr
  · simp at hr
  · split at hr
    · simp at hr
    · split at hr
      · simp at hr
      · split at hr
        · simp at hr
        · split at hr
          · split at hr
            · rcases List.mem_cons.mp hr with h | h
              · rw [h]; left; rfl
              · rw [List.mem_singleton.mp h]; right; rfl
            · rw [List.mem_singleton.mp hr]; left; rfl
          · rw [List.mem_singleton.mp hr]; left; rfl

theorem secondaryRecs_types (rates : List RateRow) (urgency : Option String) :
    ∀ r ∈ secondaryRecs rates urgency,
      r.rtype = RecType.recommended ∨ r.rtype = RecType.alternative := by
  intro r hr
  unfold secondaryRecs at hr
  split at hr
  · simp at hr
  · rw [List.mem_singleton.mp hr]
    unfold secondaryType
    cases urgency with
    | none => left; rfl
    | some s =>
      by_cases hc : s = "" ∨ strLower s ∈ (["standard", "cheapest", "none", ""] : List String)
      · left; simp only [cheapestRec, secondaryType]; rw [if_pos hc]
      · right; simp only [cheapestRec, secondaryType]; rw [if_neg hc]

theorem primaryRecs_eq (rates : List RateRow) (budget : Option Q) (u : String)
    (targets : List String) (best : RateRow) (rest : List RateRow)
    (hguard : ¬ (u = "" ∨ strLower u ∈ (["standard", "none", ""] : List String)))
    (hmap : urgencyServiceMapADK (strLower u) = some targets)
    (hs : sortByPrice (rates.filter (fun r => targets.contains r.serviceType)) = best :: rest) :
    primaryRecs rates budget (some u) =
      match budget with
      | some b => if b ≠ 0 ∧ b < best.price then [uiRec best, warnRec best b] else [uiRec best]
      | none => [uiRec best] := by
  unfold primaryRecs
  dsimp only
  rw [if_neg hguard, hmap]
  dsimp only
  rw [hs]

/-- C1, amended: for a non-empty rate list, an urgency outside
standard/cheapest/none whose mapped service-tier subset has at least one
available rate, the first recommendation is tagged user_intent and is
the cheapest option within that subset regardless of the budget, and
whenever the stated budget is non-zero and below that price a separate
budget_warning entry is also present (the user_intent pick is kept as
the head, not dropped or replaced).  The amendment restricts the
warning clause to non-zero budgets: a stated budget of 0.0 is falsy in
Python and `_analyze_options` skips the warning for it. -/
theorem analyzeOptions_user_intent_first
    (rates : List RateRow) (budget : Option Q) (u : String) (targets : List String)
    (hguard : ¬ (u = "" ∨ strLower u ∈ (["standard", "none", ""] : List String)))
    (hmap : urgencyServiceMapADK (strLower u) = some targets)
    (hmatch : rates.filter (fun r => targets.contains r.serviceType) ≠ []) :
    ∃ best,
      best ∈ rates.filter (fun r => targets.contains r.serviceType) ∧
      (∀ r ∈ rates.filter (fun r => targets.contains r.serviceType), best.price ≤ r.price) ∧
      (analyzeOptions rates budget (some u)).head? = some (uiRec best) ∧
      ∀ b : Q, budget = some b → b ≠ 0 → b < best.price →
        warnRec best b ∈ analyzeOptions rates budget (some u) := by
  have hrne : rates ≠ [] := by
    intro h
    subst h
    simp at hmatch
  cases hs : sortByPrice (rates.filter (fun r => targets.contains r.serviceType)) with
  | nil => exact absurd hs (sortByPrice_ne_nil hmatch)
  | cons best rest =>
    obtain ⟨hmem, hmin⟩ := sortByPrice_head _ _ _ hs
    have hp := primaryRecs_eq rates budget u targets best rest hguard hmap hs
    refine ⟨best, hmem, hmin, ?_, ?_⟩
    · have hcons : ∃ tl, primaryRecs rates budget (some u) = uiRec best :: tl := by
        cases budget with
        | none => exact ⟨[], hp⟩
        | some b =>
          by_cases hb : b ≠ 0 ∧ b < best.price
          · exact ⟨[warnRec best b], by rw [hp]; dsimp only; rw [if_pos hb]⟩
          · exact ⟨[], by rw [hp]; dsimp only; rw [if_neg hb]⟩
      obtain ⟨tl, hcons⟩ := hcons
      unfold analyzeOptions
      rw [if_neg hrne, hcons]
      rfl
    · intro b hb hb0 hlt
      subst hb
      have hp2 : primaryRecs rates (some b) (some u) = [uiRec best, warnRec best b] := by
        rw [hp]
        dsimp only
        rw [if_pos (show b ≠ 0 ∧ b < best.price from ⟨hb0, hlt⟩)]
      unfold analyzeOptions
      rw [if_neg hrne, hp2]
      simp

/-- C1 witness: the amended theorem applied to a concrete zone-8 rate
table with budget $50 and urgency overnight; the hypotheses are
discharged by evaluation. -/
theorem analyzeOptions_user_intent_first_witness :
    (¬ (("overnight" : String) = "" ∨ strLower "overnight" ∈ (["standard", "none", ""] : List String))) ∧
    urgencyServiceMapADK (strLower "overnight") =
      some ["FedEx_First_Overnight", "FedEx_Priority_Overnight", "FedEx_Standard_Overnight"] ∧
    exRates.filter (fun r =>
      (["FedEx_First_Overnight", "FedEx_Priority_Overnight", "FedEx_Standard_Overnight"] : List String).contains
        r.serviceType) ≠ [] ∧
    (∃ best,
      best ∈ exRates.filter (fun r =>
        (["FedEx_First_Overnight", "FedEx_Priority_Overnight", "FedEx_Standard_Overnight"] : List String).contains
          r.serviceType) ∧
      (∀ r ∈ exRates.filter (fun r =>
        (["FedEx_First_Overnight", "FedEx_Priority_Overnight", "FedEx_Standard_Overnight"] : List String).contains
          r.serviceType), best.price ≤ r.price) ∧
      (analyzeOptions exRates (some 50) (some "overnight")).head? = some (uiRec best) ∧
      ∀ b : Q, (some 50 : Option Q) = some b → b ≠ 0 → b < best.price →
        warnRec best b ∈ analyzeOptions exRates (some 50) (some "overnight")) :=
  ⟨by decide, by decide, by decide,
   analyzeOptions_user_intent_first exRates (some 50) "overnight"
     ["FedEx_First_Overnight", "FedEx_Priority_Overnight", "FedEx_Standard_Overnight"]
     (by decide) (by decide) (by decide)⟩

/-- C1 counterexample: with a stated budget of exactly 0 dollars and
urgency overnight, the user_intent pick (price 78, exceeding the 0
budget) is produced but NO budget_warning entry is appended, because
the Python truthiness test `if budget` treats 0.0 as no budget; this
refutes the claim as stated for every stated budget. -/
theorem analyzeOptions_zero_budget_no_warning :
    (analyzeOptions exRates (some 0) (some "overnight")).head? =
      some (uiRec ⟨"FedEx Standard Overnight", "FedEx_Standard_Overnight", 78,
        "1 business day by 3:00 PM", 8, 10⟩) ∧
    (0 : Q) < 78 ∧
    (analyzeOptions exRates (some 0) (some "overnight")).filter
      (fun r => r.rtype == RecType.budgetWarning) = [] := by
  decide

/-- C7, amended: for a non-empty rate list and a stated non-zero budget
strictly below every option price, the ranker output contains exactly
one over_budget entry; that entry names the cheapest available option
(its service and price) together with the stated budget — the reason
string of the source interpolates exactly these two figures, from which
the excess follows — and no budget_fit entry is produced.  The
amendment restricts the property to non-zero budgets: a stated budget
of 0.0 is falsy in Python and the whole budget-analysis block is
skipped for it. -/
theorem analyzeOptions_over_budget_entry
    (rates : List RateRow) (b : Q) (urgency : Option String)
    (hne : rates ≠ []) (hb : b ≠ 0)
    (hall : ∀ r ∈ rates, b < r.price) :
    ∃ c, c ∈ rates ∧ (∀ r ∈ rates, c.price ≤ r.price) ∧
      (analyzeOptions rates (some b) urgency).filter
        (fun r => r.rtype == RecType.overBudget) = [overRec c b] ∧
      (analyzeOptions rates (some b) urgency).filter
        (fun r => r.rtype == RecType.budgetFit) = [] := by
  cases hs : sortByPrice rates with
  | nil => exact absurd hs (sortByPrice_ne_nil hne)
  | cons c rest =>
    obtain ⟨hcm, hcmin⟩ := sortByPrice_head _ _ _ hs
    have hwithin : (sortByPrice rates).filter (fun r => r.price ≤ b) = [] := by
      rw [List.filter_eq_nil_iff]
      intro a ha
      have ham : a ∈ rates := (List.perm_insertionSort priceLe rates).mem_iff.mp ha
      simp only [decide_eq_true_eq]
      exact not_le.mpr (hall a ham)
    have hter :
        tertiaryRecs rates (some b)
          (primaryRecs rates (some b) urgency ++ secondaryRecs rates urgency) =
          [overRec c b] := by
      unfold tertiaryRecs
      dsimp only
      rw [if_neg hb, hwithin]
      dsimp only
      rw [hs]
    have hfp : (primaryRecs rates (some b) urgency).filter
        (fun r => r.rtype == RecType.overBudget) = [] := by
      rw [List.filter_eq_nil_iff]
      intro a ha
      rcases primaryRecs_types _ _ _ a ha with h | h <;> simp [h]
    have hfs : (secondaryRecs rates urgency).filter
        (fun r => r.rtype == RecType.overBudget) = [] := by
      rw [List.filter_eq_nil_iff]
      intro a ha
      rcases secondaryRecs_types _ _ a ha with h | h <;> simp [h]
    have hgp : (primaryRecs rates (some b) urgency).filter
        (fun r => r.rtype == RecType.budgetFit) = [] := by
      rw [List.filter_eq_nil_iff]
      intro a ha
      rcases primaryRecs_types _ _ _ a ha with h | h <;> simp [h]
    have hgs : (secondaryRecs rates urgency).filter
        (fun r => r.rtype == RecType.budgetFit) = [] := by
      rw [List.filter_eq_nil_iff]
      intro a ha
      rcases secondaryRecs_types _ _ a ha with h | h <;> simp [h]
    refine ⟨c, hcm, hcmin, ?_, ?_⟩
    · unfold analyzeOptions
      rw [if_neg hne, List.filter_append, List.filter_append, hfp, hfs, hter]
      simp [overRec]
    · unfold analyzeOptions
      rw [if_neg hne, List.filter_append, List.filter_append, hgp, hgs, hter]
      simp [overRec]

/-- C7 witness: the amended theorem applied to the concrete zone-8 rate
table with budget $30, below the cheapest price of $45. -/
theorem analyzeOptions_over_budget_entry_witness :
    exRates ≠ [] ∧ (30 : Q) ≠ 0 ∧ (∀ r ∈ exRates, (30 : Q) < r.price) ∧
    (∃ c, c ∈ exRates ∧ (∀ r ∈ exRates, c.price ≤ r.price) ∧
      (analyzeOptions exRates (some 30) none).filter
        (fun r => r.rtype == RecType.overBudget) = [overRec c 30] ∧
      (analyzeOptions exRates (some 30) none).filter
        (fun r => r.rtype == RecType.budgetFit) = []) :=
  ⟨by decide, by decide, by decide,
   analyzeOptions_over_budget_entry exRates 30 none (by decide) (by decide) (by decide)⟩

/-- C7 counterexample: with a stated budget of exactly 0 dollars, every
option price strictly exceeds the budget, yet NO over_budget entry is
produced at all, because the Python truthiness test `if budget` treats
0.0 as no budget; this refutes the claim as stated for every stated
budget. -/
theorem over_budget_zero_budget_counterexample :
    (∀ r ∈ exRates, (0 : Q) < r.price) ∧
    (analyzeOptions exRates (some 0) none).filter
      (fun r => r.rtype == RecType.overBudget) = [] := by
  decide

theorem q104_eq : q104 = 52 / 5 := by
  rw [q104, Rat.mk'_eq_divInt, Rat.divInt_eq_div]
  norm_num

theorem pyTrunc_eq_floor (w : Q) (hw : 0 ≤ w) : pyTrunc w = ⌊w⌋ := by
  rw [pyTrunc, if_pos hw, Rat.floor_def', ← Rat.floor_def]

/-- C5, amended: for every non-negative fractional weight, the adk
variant rounds UP to the next whole number (ceiling) before the
exact-match table query — 10.4 is looked up as 11 and 10.5 as 11 — not
round-half-up as the claim states.  This matches the source comment
"Round weight up to nearest whole number for lookup". -/
theorem weight_lookup_rounds_up (w : Q) (hw : 0 ≤ w) : weightLookup w = ⌈w⌉ := by
  rw [weightLookup, pyTrunc_eq_floor w hw]
  by_cases h : (⌊w⌋ : Q) = w
  · rw [if_pos h, ← h]
    simp
  · rw [if_neg h]
    have h1 : ⌈w⌉ ≤ ⌊w⌋ + 1 := Int.ceil_le.mpr (by push_cast; exact (Int.lt_floor_add_one w).le)
    have h2 : ⌊w⌋ < ⌈w⌉ :=
      Int.lt_ceil.mpr (lt_of_le_of_ne (Int.floor_le w) h)
    omega

/-- C5 witness: the amended theorem applied at weight 10.4; the code
looks it up as 11, the ceiling. -/
theorem weight_lookup_rounds_up_witness :
    (0 : Q) ≤ q104 ∧ weightLookup q104 = ⌈q104⌉ ∧ weightLookup q104 = 11 :=
  ⟨by decide, weight_lookup_rounds_up q104 (by decide), by decide⟩

/-- C5 counterexample: at weight 10.4 the code queries the table at
weight 11, while the claimed round-half-up rule gives 10; the claim
that 10.4 is looked up as 10 is false on this code. -/
theorem weight_rounding_counterexample :
    weightLookup q104 = 11 ∧ roundHalfUpSpec q104 = 10 ∧
    weightLookup q104 ≠ roundHalfUpSpec q104 := by
  refine ⟨by decide, ?_, ?_⟩
  · rw [roundHalfUpSpec, q104_eq]
    rw [show (52 : Q) / 5 + 1 / 2 = 109 / 10 by norm_num]
    rw [Int.floor_eq_iff]
    constructor <;> norm_num
  · intro h
    rw [show weightLookup q104 = 11 from by decide] at h
    rw [roundHalfUpSpec, q104_eq] at h
    rw [show (52 : Q) / 5 + 1 / 2 = 109 / 10 by norm_num] at h
    have : ((11 : ℤ) : Q) ≤ 109 / 10 := by
      rw [h]
      exact Int.floor_le _
    norm_num at this

/-- C4: any query whose lowercased text contains a prompt-injection
marker is blocked by the supervisor with the fixed security decline (a
final, unsuccessful response — the injection-detected branch), the
LLM-based topicality classification is never invoked (the outcome is
the same for every LLM oracle and the call flag is false), and the
orchestrator stops after the supervisor, so no downstream agent runs. -/
theorem injection_check_precedes_llm (query : String)
    (hinj : checkPromptInjection query = true) :
    (∀ llm : String → String,
      supervisorProcess query llm =
        (⟨false, SupMessage.securityDecline, none, true⟩, false)) ∧
    (∀ (llm : String → String) (customer expert : String → AgentResponseE),
      orchestrate query llm customer expert =
        (⟨false, SupMessage.securityDecline, none, true⟩, [AgentTag.supervisor])) := by
  constructor
  · intro llm
    rw [supervisorProcess, if_pos hinj]
  · intro llm customer expert
    rw [orchestrate]
    rw [supervisorProcess, if_pos hinj]
    rfl

/-- C4 witness: a concrete injection query, evaluated with a concrete
LLM oracle that would have answered YES had it been asked. -/
theorem injection_check_witness :
    checkPromptInjection "please jailbreak this assistant and ship 5 lbs to Denver" = true ∧
    supervisorProcess "please jailbreak this assistant and ship 5 lbs to Denver" (fun _ => "YES") =
      (⟨false, SupMessage.securityDecline, none, true⟩, false) :=
  ⟨by decide,
   (injection_check_precedes_llm "please jailbreak this assistant and ship 5 lbs to Denver"
     (by decide)).1 (fun _ => "YES")⟩

/-- C8: when the item description matches a key of the static
common-weights table (substring containment in either direction,
case-insensitive), estimate_weight returns that entry with confidence
high and source database and no LLM call is made; only on a table miss
is the LLM consulted, and a failed or malformed LLM response yields the
fixed default of 5.0 lbs at confidence low instead of an error. -/
theorem estimate_weight_database_first (itemDescription : String) (o : LlmWeightResp) :
    (∀ k w, COMMON_WEIGHTS.find?
        (fun p => weightKeyMatch p.1 (pyStrip (strLower itemDescription))) = some (k, w) →
      (k, w) ∈ COMMON_WEIGHTS ∧
      weightKeyMatch k (pyStrip (strLower itemDescription)) = true ∧
      estimateWeight itemDescription o =
        (⟨w, "high", "database", ReasonTag.databaseMatch itemDescription w⟩, false)) ∧
    (COMMON_WEIGHTS.find?
        (fun p => weightKeyMatch p.1 (pyStrip (strLower itemDescription))) = none →
      (estimateWeight itemDescription o).2 = true ∧
      (estimateWeight itemDescription o).1.source = "llm_estimation" ∧
      (o = LlmWeightResp.fail →
        estimateWeight itemDescription o =
          (⟨5, "low", "llm_estimation", ReasonTag.llmDefaultReason itemDescription⟩, true))) := by
  constructor
  · intro k w hf
    refine ⟨List.mem_of_find?_eq_some hf, ?_, ?_⟩
    · have := List.find?_some hf
      exact this
    · rw [estimateWeight, hf]
  · intro hf
    refine ⟨?_, ?_, ?_⟩
    · rw [estimateWeight, hf]
    · rw [estimateWeight, hf]
    · intro ho
      subst ho
      rw [estimateWeight, hf]
      rfl

/-- C8 witness: the 65 inch TV scenario resolves from the static table
at 55 lbs with no LLM call, and an unknown item with a failing LLM
falls back to the 5 lb default at low confidence. -/
theorem estimate_weight_database_first_witness :
    COMMON_WEIGHTS.find?
      (fun p => weightKeyMatch p.1 (pyStrip (strLower "65 inch TV"))) = some ("65 inch tv", 55) ∧
    estimateWeight "65 inch TV" LlmWeightResp.fail =
      (⟨55, "high", "database", ReasonTag.databaseMatch "65 inch TV" 55⟩, false) ∧
    COMMON_WEIGHTS.find?
      (fun p => weightKeyMatch p.1 (pyStrip (strLower "vintage gramophone"))) = none ∧
    estimateWeight "vintage gramophone" LlmWeightResp.fail =
      (⟨5, "low", "llm_estimation", ReasonTag.llmDefaultReason "vintage gramophone"⟩, true) :=
  ⟨by decide,
   ((estimate_weight_database_first "65 inch TV" LlmWeightResp.fail).1 "65 inch tv" 55
     (by decide)).2.2,
   by decide,
   ((estimate_weight_database_first "vintage gramophone" LlmWeightResp.fail).2
     (by decide)).2.2 rfl⟩

/-- C9: reflection never fails the overall request — it is a total
function of the state.  If there is no recommendation to reflect on
(missing, empty, or service N/A) it degrades to the fixed message
"No recommendation to reflect on."; and whenever either LLM call of the
reflection stage raises, the reflection field is set to the fixed
static reassurance string and processing continues with an empty chain
of thought. -/
theorem reflection_never_fails :
    (∀ cotOracle finalOracle,
      performReflection none cotOracle finalOracle = ⟨noReflectionMsg, "", false⟩) ∧
    (∀ (r : RecInfo) cotOracle finalOracle, r.service = "N/A" →
      performReflection (some r) cotOracle finalOracle = ⟨noReflectionMsg, "", false⟩) ∧
    (∀ (r : RecInfo) cotOracle finalOracle, r.service ≠ "N/A" →
      cotOracle = none ∨ finalOracle = none →
      performReflection (some r) cotOracle finalOracle =
        ⟨reflectionFallbackMsg, "", false⟩) := by
  refine ⟨fun _ _ => rfl, ?_, ?_⟩
  · intro r cotOracle finalOracle hna
    simp only [performReflection]
    rw [if_pos hna]
  · intro r cotOracle finalOracle hna hfail
    simp only [performReflection]
    rw [if_neg hna]
    rcases hfail with h | h
    · subst h
      rfl
    · subst h
      cases cotOracle <;> rfl

/-- C9 witness: the theorem applied to a first-message state with no
recommendation, to an N/A recommendation, and to a real recommendation
whose second LLM call raises. -/
theorem reflection_never_fails_witness :
    performReflection none none none = ⟨noReflectionMsg, "", false⟩ ∧
    ((⟨"N/A", 0, "No rates found."⟩ : RecInfo).service = "N/A" ∧
      performReflection (some ⟨"N/A", 0, "No rates found."⟩) (some "trace") (some "fine") =
        ⟨noReflectionMsg, "", false⟩) ∧
    ((⟨"FedEx 2Day", 60, "Best option."⟩ : RecInfo).service ≠ "N/A" ∧
      performReflection (some ⟨"FedEx 2Day", 60, "Best option."⟩) (some "trace") none =
        ⟨reflectionFallbackMsg, "", false⟩) :=
  ⟨reflection_never_fails.1 none none,
   ⟨by decide,
    reflection_never_fails.2.1 ⟨"N/A", 0, "No rates found."⟩ (some "trace") (some "fine") rfl⟩,
   ⟨by decide,
    reflection_never_fails.2.2 ⟨"FedEx 2Day", 60, "Best option."⟩ (some "trace") none
      (by decide) (Or.inr rfl)⟩⟩

/-- C2, amended: the two parser variants represent a missing budget
differently and neither keeps an explicit 0 dollars distinct from no
constraint.  In the adk variant, a missing budget parses to None, but
an explicit 0 budget is also coerced to None by the normalization list
[None-string, null-string, empty, 0], while non-zero figures survive.
In the unified variant, a missing (or None, or 0) budget is the
numeric sentinel 10000.0, which participates in ranking arithmetic:
budget at least 10000 selects the unfiltered no-constraint path of
_find_best_service, and any smaller budget filters options by cost. -/
theorem budget_representation_semantics :
    (adkNormalizeBudget Jv.null = Jv.null) ∧
    (adkNormalizeBudget (Jv.num 0) = Jv.null) ∧
    (∀ q : Q, q ≠ 0 → adkNormalizeBudget (Jv.num q) = Jv.num q) ∧
    (unifiedBudgetValue none = 10000) ∧
    (unifiedBudgetValue (some (Jv.str "None")) = 10000) ∧
    (unifiedBudgetValue (some (Jv.num 0)) = 10000) ∧
    (∀ q : Q, q ≠ 0 → unifiedBudgetValue (some (Jv.num q)) = q) ∧
    (∀ (data : List DataRow) (b : Q), 10000 ≤ b →
      collectOptions data b = collectOptionsNoBudget data) ∧
    (∀ (data : List DataRow) (b : Q), b < 10000 →
      ∀ o ∈ collectOptions data b, o.cost ≤ b) := by
  refine ⟨rfl, by decide, ?_, rfl, rfl, by decide, ?_, ?_, ?_⟩
  · intro q hq
    simp only [adkNormalizeBudget]
    rw [if_neg hq]
  · intro q hq
    simp only [unifiedBudgetValue]
    rw [if_neg hq]
  · intro data b hb
    unfold collectOptions collectOptionsNoBudget
    congr 1
    funext row
    congr 1
    funext s
    cases hv : rowGet row s with
    | none => rfl
    | some v =>
      cases v with
      | none => rfl
      | some c =>
        by_cases hc : c ≠ 0
        · simp only [hc, if_true, ge_iff_le, hb, if_pos]
        · simp only [hc, if_false]
  · intro data b hb o ho
    unfold collectOptions at ho
    rw [List.mem_flatMap] at ho
    obtain ⟨row, _, ho⟩ := ho
    rw [List.mem_filterMap] at ho
    obtain ⟨s, _, ho⟩ := ho
    cases hv : rowGet row s with
    | none => rw [hv] at ho; exact absurd ho (by simp)
    | some v =>
      cases v with
      | none => rw [hv] at ho; exact absurd ho (by simp)
      | some c =>
        rw [hv] at ho
        dsimp only at ho
        by_cases hc : c ≠ 0
        · rw [if_pos hc, if_neg (not_le.mpr hb)] at ho
          by_cases hcb : c ≤ b
          · rw [if_pos hcb] at ho
            cases ho
            exact hcb
          · rw [if_neg hcb] at ho
            exact absurd ho (by simp)
        · rw [if_neg hc] at ho
          exact absurd ho (by simp)

/-- C2 witness: the amended theorem applied at a $50 budget (kept by
both variants), at the sentinel itself, and at a filtering budget of
$80 on a concrete result row. -/
theorem budget_representation_semantics_witness :
    ((50 : Q) ≠ 0 ∧ adkNormalizeBudget (Jv.num 50) = Jv.num 50) ∧
    ((50 : Q) ≠ 0 ∧ unifiedBudgetValue (some (Jv.num 50)) = 50) ∧
    ((10000 : Q) ≤ 10000 ∧
      collectOptions [exDataRow] 10000 = collectOptionsNoBudget [exDataRow]) ∧
    ((80 : Q) < 10000 ∧ ∀ o ∈ collectOptions [exDataRow] 80, o.cost ≤ 80) :=
  ⟨⟨by decide, budget_representation_semantics.2.2.1 50 (by decide)⟩,
   ⟨by decide, budget_representation_semantics.2.2.2.2.2.2.1 50 (by decide)⟩,
   ⟨by decide, budget_representation_semantics.2.2.2.2.2.2.2.1 [exDataRow] 10000 (by decide)⟩,
   ⟨by decide, budget_representation_semantics.2.2.2.2.2.2.2.2 [exDataRow] 80 (by decide)⟩⟩

/-- C2 counterexample: a query with no stated dollar amount (the
cheapest-rate phrasing, extraction returning budget None-string)
parses in the unified variant to the numeric budget 10000.0 — not to a
none value — and in the adk variant an explicit 0 budget normalizes to
exactly the same representation as an absent budget, so the
no-constraint value is not kept distinct from an explicit 0 dollars. -/
theorem budget_absent_sentinel_counterexample :
    (parseRequest "What is the cheapest rate to Denver"
      (some ⟨some "Current location", some "Denver, CO", some 10, some (Jv.str "None"),
        some "cheapest"⟩)
      (fun _ => none) (fun _ _ => none)) =
      (ParseOutcome.ok ⟨"What is the cheapest rate to Denver", "Current location",
        "Denver, CO", 10, 10000, "cheapest", 3, false⟩, true) ∧
    (10000 : Q) ≠ 0 ∧
    adkNormalizeBudget (Jv.num 0) = adkNormalizeBudget Jv.null := by
  decide

/-- C3: any query whose lowercased text contains a living-being keyword
is blocked in `_parse_request` before the LLM extraction call (the
outcome is identical for every oracle and the LLM-called flag is
false), the block is the prohibited-item branch carrying exactly the
matched keywords, and `process_request` returns that terminal result
with the SQL stage never entered, so no rate lookup or ranking occurs
for such a query. -/
theorem prohibited_item_gate_blocks_before_llm (q : String)
    (hliving : livingBeingsKeywords.filter (fun k => pyIn k (strLower q)) ≠ []) :
    (∀ parseOracle stateOracle cityOracle,
      parseRequest q parseOracle stateOracle cityOracle =
        (ParseOutcome.blockedLiving
          (livingBeingsKeywords.filter (fun k => pyIn k (strLower q))), false)) ∧
    (∀ parseOracle stateOracle cityOracle sqlGen sqlExec,
      processRequest q parseOracle stateOracle cityOracle sqlGen sqlExec =
        (UnifiedOutcome.clarification (ClarTag.prohibitedItem
          (livingBeingsKeywords.filter (fun k => pyIn k (strLower q)))), false, false)) := by
  have hpr : ∀ parseOracle stateOracle cityOracle,
      parseRequest q parseOracle stateOracle cityOracle =
        (ParseOutcome.blockedLiving
          (livingBeingsKeywords.filter (fun k => pyIn k (strLower q))), false) := by
    intro po so co
    rw [parseRequest, if_pos hliving]
  refine ⟨hpr, ?_⟩
  intro po so co sg se
  unfold processRequest
  rw [hpr po so co]

/-- C3 witness: the spec scenario "Ship my cat to Fremont, CA" is
blocked as a prohibited item with no LLM call and no SQL stage, for
concrete failing oracles. -/
theorem prohibited_item_gate_witness :
    livingBeingsKeywords.filter
      (fun k => pyIn k (strLower "Ship my cat to Fremont, CA")) ≠ [] ∧
    processRequest "Ship my cat to Fremont, CA" none (fun _ => none) (fun _ _ => none)
      (fun _ => none) (fun _ => none) =
      (UnifiedOutcome.clarification (ClarTag.prohibitedItem
        (livingBeingsKeywords.filter
          (fun k => pyIn k (strLower "Ship my cat to Fremont, CA")))), false, false) :=
  ⟨by decide,
   (prohibited_item_gate_blocks_before_llm "Ship my cat to Fremont, CA" (by decide)).2
     none (fun _ => none) (fun _ _ => none) (fun _ => none) (fun _ => none)⟩

theorem lookupTbl_mem {α : Type} (t : List (String × α)) (k : String) (v : α)
    (h : lookupTbl t k = some v) : ∃ p ∈ t, p.2 = v := by
  unfold lookupTbl at h
  cases hf : t.find? (fun p => p.1 == k) with
  | none => rw [hf] at h; exact absurd h (by simp)
  | some p =>
    rw [hf] at h
    refine ⟨p, List.mem_of_find?_eq_some hf, ?_⟩
    simpa using h

theorem getZone_exact (city state : String) (z : ℕ)
    (h : lookupTbl ZONE_DATABASE (zoneKey city state) = some z) :
    getZone city state = (z, ZoneExpl.foundInDb city state) := by
  unfold getZone
  rw [h]

theorem getZone_approx (city state : String) (p : String × ℕ)
    (h1 : lookupTbl ZONE_DATABASE (zoneKey city state) = none)
    (h2 : ZONE_DATABASE.find? (fun r => pyIn (strLower city) r.1) = some p) :
    getZone city state = (p.2, ZoneExpl.approxMatch city) := by
  unfold getZone
  rw [h1, h2]

theorem getZone_state (city state : String) (z : ℕ)
    (h1 : lookupTbl ZONE_DATABASE (zoneKey city state) = none)
    (h2 : ZONE_DATABASE.find? (fun r => pyIn (strLower city) r.1) = none)
    (h3 : lookupTbl calcStateZones (strUpper state) = some z) :
    getZone city state = (z, ZoneExpl.stateEstimate state) := by
  unfold getZone
  rw [h1, h2, h3]

theorem getZone_default (city state : String)
    (h1 : lookupTbl ZONE_DATABASE (zoneKey city state) = none)
    (h2 : ZONE_DATABASE.find? (fun r => pyIn (strLower city) r.1) = none)
    (h3 : lookupTbl calcStateZones (strUpper state) = none) :
    getZone city state = (5, ZoneExpl.defaultZone) := by
  unfold getZone
  rw [h1, h2, h3]

set_option maxRecDepth 4000 in
theorem getZone_bounds (city state : String) :
    2 ≤ (getZone city state).1 ∧ (getZone city state).1 ≤ 8 := by
  have hdb : ∀ p ∈ ZONE_DATABASE, 2 ≤ p.2 ∧ p.2 ≤ 8 := by decide
  have hsz : ∀ p ∈ calcStateZones, 2 ≤ p.2 ∧ p.2 ≤ 8 := by decide
  unfold getZone
  cases h1 : lookupTbl ZONE_DATABASE (zoneKey city state) with
  | some z =>
    obtain ⟨p, hp, hpv⟩ := lookupTbl_mem _ _ _ h1
    exact hpv ▸ hdb p hp
  | none =>
    cases h2 : ZONE_DATABASE.find? (fun p => pyIn (strLower city) p.1) with
    | some p => exact hdb p (List.mem_of_find?_eq_some h2)
    | none =>
      cases h3 : lookupTbl calcStateZones (strUpper state) with
      | some z =>
        obtain ⟨p, hp, hpv⟩ := lookupTbl_mem _ _ _ h3
        exact hpv ▸ hsz p hp
      | none => exact ⟨by norm_num, by norm_num⟩

/-- C6, amended: the `ZoneCalculator._get_zone` cascade never fails and
always returns a zone in the range 2..8: exact match in the static
city-to-zone table, then substring containment against the table keys,
then the static state-to-typical-zone table, then the fixed default
zone 5; each tier yields a distinguishable explanation (the rendered
template of each tier starts with a distinct word, so the explanation
string determines the tier).  The amendment drops the second cited
symbol from the universal claim: `FedExZoneLookupTool.lookup_zone` CAN
fail — see the counterexample — because it has no default-zone tier
and its state table is missing many states. -/
theorem getZone_total_range_explained (city state : String) :
    (2 ≤ (getZone city state).1 ∧ (getZone city state).1 ≤ 8) ∧
    (∀ z, lookupTbl ZONE_DATABASE (zoneKey city state) = some z →
      getZone city state = (z, ZoneExpl.foundInDb city state)) ∧
    (∀ p, lookupTbl ZONE_DATABASE (zoneKey city state) = none →
      ZONE_DATABASE.find? (fun r => pyIn (strLower city) r.1) = some p →
      getZone city state = (p.2, ZoneExpl.approxMatch city)) ∧
    (∀ z, lookupTbl ZONE_DATABASE (zoneKey city state) = none →
      ZONE_DATABASE.find? (fun r => pyIn (strLower city) r.1) = none →
      lookupTbl calcStateZones (strUpper state) = some z →
      getZone city state = (z, ZoneExpl.stateEstimate state)) ∧
    (lookupTbl ZONE_DATABASE (zoneKey city state) = none →
      ZONE_DATABASE.find? (fun r => pyIn (strLower city) r.1) = none →
      lookupTbl calcStateZones (strUpper state) = none →
      getZone city state = (5, ZoneExpl.defaultZone)) ∧
    (∀ e : ZoneExpl, explKindOfRender (renderZoneExpl e) = explKind e) := by
  refine ⟨getZone_bounds city state,
    fun z h => getZone_exact city state z h,
    fun p h1 h2 => getZone_approx city state p h1 h2,
    fun z h1 h2 h3 => getZone_state city state z h1 h2 h3,
    fun h1 h2 h3 => getZone_default city state h1 h2 h3,
    ?_⟩
  intro e
  cases e <;> rfl

/-- C6 witness: a database hit (Chicago, IL in zone 5), and a total
miss resolving through the state fallback (zone 2 for an unknown
California town), both by applying the theorem with its hypotheses
discharged by evaluation. -/
theorem getZone_total_range_witness :
    (lookupTbl ZONE_DATABASE (zoneKey "Chicago" "IL") = some 5 ∧
      getZone "Chicago" "IL" = (5, ZoneExpl.foundInDb "Chicago" "IL")) ∧
    (lookupTbl ZONE_DATABASE (zoneKey "Xyzzyville" "CA") = none ∧
      ZONE_DATABASE.find? (fun r => pyIn (strLower "Xyzzyville") r.1) = none ∧
      lookupTbl calcStateZones (strUpper "CA") = some 2 ∧
      getZone "Xyzzyville" "CA" = (2, ZoneExpl.stateEstimate "CA")) :=
  ⟨⟨by decide,
    (getZone_total_range_explained "Chicago" "IL").2.1 5 (by decide)⟩,
   ⟨by decide, by decide, by decide,
    (getZone_total_range_explained "Xyzzyville" "CA").2.2.2.1 2
      (by decide) (by decide) (by decide)⟩⟩

/-- C6 counterexample: the also-cited `FedExZoneLookupTool.lookup_zone`
CAN fail: for city Xyzzy, state OH (with the LLM correction calls
failing), the city lookup misses, and OH is absent from the smaller
state table of that tool, so it returns no zone at all — there is no
default-zone tier — refuting the claim that zone lookup never fails
for every (city, state) input. -/
theorem tool_lookup_zone_can_fail :
    toolLookupZone (some "Xyzzy") (some "OH") none (fun _ => none) (fun _ _ => none) =
      (none, ToolExpl.unableToDetermine) := by
  decide

/-- C10: for a single-token location that is neither a known airport
code nor a nickname, if the inference LLM call fails or returns text
without a comma, `_resolve_location` returns the title-cased input
paired with state CA (via `_infer_location`); consequently, when the
title-cased token misses both the exact and substring tiers of the
zone table, `_get_zone` silently resolves it to zone 2 through the CA
state fallback instead of reporting an unresolved location. -/
theorem infer_location_ca_fallback (loc : String) (inferOracle : String → Option String)
    (hair : lookupTbl2 AIRPORT_CODES (strUpper (pyStrip loc)) = none)
    (hnick : lookupTbl2 CITY_NICKNAMES (strLower (pyStrip loc)) = none)
    (hnc : pyIn "," loc = false)
    (hfail : inferOracle loc = none ∨
      ∃ r, inferOracle loc = some r ∧ pyIn "," (pyStrip r) = false) :
    (∀ stOracle cityOracle,
      resolveLocation loc stOracle cityOracle inferOracle =
        (pyTitle loc, "CA", ResolveExpl.inferred (pyTitle loc) "CA")) ∧
    (lookupTbl ZONE_DATABASE (zoneKey (pyTitle loc) "CA") = none →
      ZONE_DATABASE.find? (fun r => pyIn (strLower (pyTitle loc)) r.1) = none →
      getZone (pyTitle loc) "CA" = (2, ZoneExpl.stateEstimate "CA")) := by
  constructor
  · intro stOracle cityOracle
    have hinf : inferLocation loc inferOracle = (pyTitle loc, "CA") := by
      rcases hfail with h | ⟨r, hr, hrc⟩
      · rw [inferLocation, h]
      · rw [inferLocation, hr]
        dsimp only
        rw [hrc]
        simp only [Bool.false_eq_true, if_false]
    unfold resolveLocation
    rw [hair, hnick]
    dsimp only
    rw [hnc]
    simp only [Bool.false_eq_true, if_false]
    rw [hinf]
  · intro h1 h2
    exact getZone_state (pyTitle loc) "CA" 2 h1 h2 (by decide)

/-- C10 witness: the unrecognized single token gotham, with a failing
inference oracle, resolves to (Gotham, CA) and zone 2 by the state
fallback. -/
theorem infer_location_ca_fallback_witness :
    lookupTbl2 AIRPORT_CODES (strUpper (pyStrip "gotham")) = none ∧
    lookupTbl2 CITY_NICKNAMES (strLower (pyStrip "gotham")) = none ∧
    pyIn "," "gotham" = false ∧
    resolveLocation "gotham" (fun _ => none) (fun _ _ => none) (fun _ => none) =
      (pyTitle "gotham", "CA", ResolveExpl.inferred (pyTitle "gotham") "CA") ∧
    getZone (pyTitle "gotham") "CA" = (2, ZoneExpl.stateEstimate "CA") :=
  ⟨by decide, by decide, by decide,
   (infer_location_ca_fallback "gotham" (fun _ => none) (by decide) (by decide) (by decide)
     (Or.inl rfl)).1 (fun _ => none) (fun _ _ => none),
   (infer_location_ca_fallback "gotham" (fun _ => none) (by decide) (by decide) (by decide)
     (Or.inl rfl)).2 (by decide) (by decide)⟩

